import Mathlib

/-!
Verification development for the SRAD flight-computer firmware.

Shallow embedding conventions:
* IEEE-754 `float` values are modelled as `Option ℚ`; `none` is the NaN
  sentinel ("unknown"), `some q` a finite value.  Fields that the firmware
  can never set to NaN (they are only ever assigned numeric literals or
  results of total arithmetic) are modelled as plain `ℚ`.
* `uint32` millisecond counters and timestamps are modelled as `Nat`
  (admissible runs stay far below the 2^32 wrap).
* The FC flag bitmask `u32` is modelled as a record of `Bool`s, one per
  named `FCF_*` bit; the firmware only ever sets/clears individual named
  bits, never does cross-bit arithmetic.
* `cosf(FC_TILT_ABORT_DEG * 0.01745329252f)` is a compile-time float
  constant with no exact rational value; the FC-core functions take it as
  a parameter `cth : ℚ` (theorems hold for every value, witnesses use the
  approximation 0.866).
-/

-- `Rat.inv` is shipped `@[irreducible]`; restore reducibility so that
-- concrete runs of the embedded programs evaluate under `decide`.
set_option allowUnsafeReducibility true
attribute [semireducible] Rat.inv Rat.mul Rat.add Rat.sub Rat.ofScientific

/-! ## Configuration constants (include/config/fc_config.h, app_config.h,
    include/config/actuators_config.h) -/

def FC_SOS_FIXED_MPS : ℚ := 300
def FC_MACH_MAX_FOR_DEPLOY : ℚ := 1/2
def FC_MACH_HYST : ℚ := 1/50
def FC_MACH_DWELL_MS : Nat := 300
def FC_TILT_ABORT_DEG : ℚ := 30
def FC_TILT_ABORT_DWELL_MS : Nat := 200
def FC_VZ_LIFTOFF_MPS : ℚ := 8
def FC_AZ_LIFTOFF_MPS2 : ℚ := 15
def FC_LIFTOFF_MIN_AGL_M : ℚ := 5
def FC_LIFTOFF_DWELL_MS : Nat := 150
def FC_BURNOUT_AZ_DONE_MPS2 : ℚ := 1
def FC_BURNOUT_DWELL_MS : Nat := 200
def FC_BURNOUT_HOLD_MS : Nat := 1500
def FC_MIN_DEPLOY_AGL_M : ℚ := 200
def FC_TARGET_APOGEE_AGL_M : ℚ := 3048
def FC_APOGEE_HIGH_MARGIN_M : ℚ := 45
def FC_RETRACT_BEFORE_APOGEE_S : ℚ := 5
def FC_EXPECTED_TTA_S : ℚ := 18
def FC_EXPECTED_TTA_SCALE_TIMEOUT : ℚ := 6/5
def FC_SENSOR_INVALID_MS : Nat := 150
def FC_SENSOR_RECOVERY_MS : Nat := 1500
def FC_BARO_AGREE_M : ℚ := 15
def FC_BARO_AGREE_MS : Nat := 500
def FC_DEPLOY_CMD_DEG : ℚ := 30

def ZERO_AGL_AFTER_MS : Nat := 10000
def FUSION_W_BMP1 : ℚ := 7/10
def FUSION_W_IMU1 : ℚ := 1 - FUSION_W_BMP1
def FUSION_VZ_ALPHA : ℚ := 85/100
def FUSION_VZ_MAX_DT_MS : ℚ := 200
def FUSION_SAFE_TAPX_FACTOR : ℚ := 7/10
def FUSION_SAFE_ZAPX_FACTOR : ℚ := 8/10
def FUSION_VZ_FUSE_BETA : ℚ := 2/10
def SOS_10KFT_DELTA_K : ℚ := 198/10
def SOS_MIN_FLOOR_MPS : ℚ := 300
def G0 : ℚ := 980665/100000

def SERVO_MIN_US : Nat := 1000
def SERVO_MAX_US : Nat := 1400

/-! ## FC core data model (include/services/fc.h, services/fc_core.cpp) -/

inductive FcState
  | FC_SAFE
  | FC_PREFLIGHT
  | FC_ARMED_WAIT
  | FC_BOOST
  | FC_POST_BURN_HOLD
  | FC_WINDOW
  | FC_DEPLOYED
  | FC_RETRACTING
  | FC_LOCKED
  | FC_ABORT_LOCKOUT
  deriving DecidableEq, Repr

open FcState

/-- The `FCF_*` bitmask, one Boolean per named bit. -/
structure FcFlags where
  sens_imu1_ok : Bool
  sens_bmp1_ok : Bool
  sens_imu2_ok : Bool
  baro_agree : Bool
  mach_ok : Bool
  tilt_ok : Bool
  tilt_latch : Bool
  liftoff_det : Bool
  burnout_det : Bool
  deriving DecidableEq, Repr

def FcFlags.zero : FcFlags :=
  ⟨false, false, false, false, false, false, false, false, false⟩

/-- Persistent FC context (`FcCoreCtx`), the fields written by
    `fc_init` / `fc_step`. -/
structure FcCoreCtx where
  state : FcState
  flags : FcFlags
  t_state_ms : Nat
  t_launch_ms : Nat
  t_burnout_ms : Nat
  t_deploy_ms : Nat
  tilt_latched : Bool
  mach_ok_acc_ms : Nat
  tilt_bad_acc_ms : Nat
  liftoff_acc_ms : Nat
  burnout_acc_ms : Nat
  imu1_ok : Bool
  bmp1_ok : Bool
  imu2_ok : Bool
  imu1_good_acc : Nat
  imu1_bad_acc : Nat
  bmp1_good_acc : Nat
  bmp1_bad_acc : Nat
  imu2_good_acc : Nat
  imu2_bad_acc : Nat
  deriving DecidableEq, Repr

/-- Function-local `static` variables inside `update_flags` / `update_fsm`
    (process-global; NOT part of `FcCoreCtx`, NOT touched by `fc_init`). -/
structure FcStatics where
  mach_ok_state : Bool
  agree_acc : Nat
  liftoff_latched : Bool
  burnout_latched : Bool
  deriving DecidableEq, Repr

/-- Power-on zero-initialisation of the function-local statics. -/
def FcStatics.init : FcStatics := ⟨false, 0, false, false⟩

/-- Per-tick inputs assembled by `fc_task` (struct `FcInputs`). -/
structure FcInputs where
  dt_ms : Nat
  now_ms : Nat
  tilt_deg : Option ℚ
  agl_fused_m : Option ℚ
  vz_fused_mps : Option ℚ
  vz_mps : Option ℚ
  az_imu1_mps2 : Option ℚ
  t_apogee_s : Option ℚ
  apogee_agl_m : Option ℚ
  agl_ready : Bool
  bmp1_altitude_m : Option ℚ
  imu1_altitude_m : Option ℚ
  imu1_valid : Bool
  bmp1_valid : Bool
  imu2_valid : Bool
  deriving DecidableEq, Repr

structure FcOutputs where
  state : FcState
  flags : FcFlags
  airbrake_cmd_deg : ℚ
  t_to_apogee_s : Option ℚ
  t_since_launch_s : ℚ
  mach_cons : Option ℚ
  tilt_deg : Option ℚ
  deriving DecidableEq, Repr

/-- `fc_init` (fc_core.cpp:11-28): resets the context (but, being a plain
    member-wise reset, cannot touch the function-local statics). -/
def fc_init : FcCoreCtx where
  state := FC_PREFLIGHT
  flags := FcFlags.zero
  t_state_ms := 0
  t_launch_ms := 0
  t_burnout_ms := 0
  t_deploy_ms := 0
  tilt_latched := false
  mach_ok_acc_ms := 0
  tilt_bad_acc_ms := 0
  liftoff_acc_ms := 0
  burnout_acc_ms := 0
  imu1_ok := false
  bmp1_ok := false
  imu2_ok := false
  imu1_good_acc := 0
  imu1_bad_acc := 0
  bmp1_good_acc := 0
  bmp1_bad_acc := 0
  imu2_good_acc := 0
  imu2_bad_acc := 0

/-- The `memset(&s_ctx, 0, sizeof(s_ctx))` image used by `fcSoftReset`
    (fusion.cpp/fc.cpp:537): all-zero, so `state = 0 = FC_SAFE`. -/
def fcCtxZero : FcCoreCtx where
  state := FC_SAFE
  flags := FcFlags.zero
  t_state_ms := 0
  t_launch_ms := 0
  t_burnout_ms := 0
  t_deploy_ms := 0
  tilt_latched := false
  mach_ok_acc_ms := 0
  tilt_bad_acc_ms := 0
  liftoff_acc_ms := 0
  burnout_acc_ms := 0
  imu1_ok := false
  bmp1_ok := false
  imu2_ok := false
  imu1_good_acc := 0
  imu1_bad_acc := 0
  bmp1_good_acc := 0
  bmp1_bad_acc := 0
  imu2_good_acc := 0
  imu2_bad_acc := 0

/-! ## update_flags (fc_core.cpp:60-128), decomposed block by block -/

/-- The sensor-validity debounce lambda `upd` (fc_core.cpp:63-67).
    Returns (ok, good_acc, bad_acc). -/
def upd_sensor (sample_ok ok : Bool) (good_acc bad_acc dt : Nat) :
    Bool × Nat × Nat :=
  if sample_ok then
    let good := good_acc + dt
    ((if !ok && decide (FC_SENSOR_RECOVERY_MS ≤ good) then true else ok), good, 0)
  else
    let bad := bad_acc + dt
    ((if ok && decide (FC_SENSOR_INVALID_MS ≤ bad) then false else ok), 0, bad)

/-- Sensor debounce application to the three sensors (fc_core.cpp:68-70). -/
def sensors_block (c : FcCoreCtx) (i : FcInputs) : FcCoreCtx :=
  let r1 := upd_sensor i.imu1_valid c.imu1_ok c.imu1_good_acc c.imu1_bad_acc i.dt_ms
  let r2 := upd_sensor i.bmp1_valid c.bmp1_ok c.bmp1_good_acc c.bmp1_bad_acc i.dt_ms
  let r3 := upd_sensor i.imu2_valid c.imu2_ok c.imu2_good_acc c.imu2_bad_acc i.dt_ms
  { c with
    imu1_ok := r1.1, imu1_good_acc := r1.2.1, imu1_bad_acc := r1.2.2
    bmp1_ok := r2.1, bmp1_good_acc := r2.2.1, bmp1_bad_acc := r2.2.2
    imu2_ok := r3.1, imu2_good_acc := r3.2.1, imu2_bad_acc := r3.2.2 }

/-- Tilt latch and dwell accumulator (fc_core.cpp:72-82). -/
def tilt_block (c : FcCoreCtx) (i : FcInputs) : FcCoreCtx :=
  match i.tilt_deg with
  | none => c
  | some tilt =>
    if FC_TILT_ABORT_DEG ≤ tilt then
      let acc := c.tilt_bad_acc_ms + i.dt_ms
      { c with tilt_bad_acc_ms := acc
               tilt_latched := if FC_TILT_ABORT_DWELL_MS ≤ acc then true else c.tilt_latched }
    else
      { c with tilt_bad_acc_ms := 0 }

/-- C `fabsf`, written out so that it reduces in the kernel. -/
def fabsf (x : ℚ) : ℚ := if x < 0 then -x else x

/-- The conservative-Mach sample of a tick (fc_core.cpp:85-92): vz_fused
    with fallback to vz_mps, scaled by the worst-tilt cosine (clamped at
    0.1) and the fixed SoS.  `cth` stands for the float constant
    `cosf(FC_TILT_ABORT_DEG * 0.01745329252f)`. -/
def machOf (cth : ℚ) (i : FcInputs) : Option ℚ :=
  let vz := match i.vz_fused_mps with
            | some v => some v
            | none => i.vz_mps
  match vz with
  | none => none
  | some v =>
    let cthc := if cth < 1/10 then 1/10 else cth
    some (fabsf v / cthc / FC_SOS_FIXED_MPS)

/-- Mach hysteresis-with-dwell gate (fc_core.cpp:93-106); skipped entirely
    when the speed sample is NaN.  Returns the new context, statics and the
    tick's `mach` value (`out_mach`). -/
def mach_block (cth : ℚ) (c : FcCoreCtx) (st : FcStatics) (i : FcInputs) :
    FcCoreCtx × FcStatics × Option ℚ :=
  match machOf cth i with
  | none => (c, st, none)
  | some mach =>
    if mach < FC_MACH_MAX_FOR_DEPLOY then
      let acc := c.mach_ok_acc_ms + i.dt_ms
      let ok := if !st.mach_ok_state && decide (FC_MACH_DWELL_MS ≤ acc) then true
                else st.mach_ok_state
      ({ c with mach_ok_acc_ms := acc, flags.mach_ok := ok },
       { st with mach_ok_state := ok }, some mach)
    else if FC_MACH_MAX_FOR_DEPLOY + FC_MACH_HYST < mach then
      ({ c with mach_ok_acc_ms := 0, flags.mach_ok := false },
       { st with mach_ok_state := false }, some mach)
    else
      ({ c with flags.mach_ok := st.mach_ok_state }, st, some mach)

/-- Baro-agreement gate (fc_core.cpp:108-120); skipped unless both sensors
    are valid and both raw altitudes are finite. -/
def agree_block (c : FcCoreCtx) (st : FcStatics) (i : FcInputs) :
    FcCoreCtx × FcStatics :=
  if i.bmp1_valid && i.imu1_valid then
    match i.bmp1_altitude_m, i.imu1_altitude_m with
    | some ba, some ia =>
      let diff := fabsf (ba - ia)
      if diff ≤ FC_BARO_AGREE_M then
        let acc := st.agree_acc + i.dt_ms
        ((if FC_BARO_AGREE_MS ≤ acc then { c with flags.baro_agree := true } else c),
         { st with agree_acc := acc })
      else
        ({ c with flags.baro_agree := false }, { st with agree_acc := 0 })
    | _, _ => (c, st)
  else (c, st)

/-- Instantaneous flags (fc_core.cpp:122-127). -/
def inst_flags (c : FcCoreCtx) (i : FcInputs) : FcCoreCtx :=
  { c with flags := { c.flags with
      sens_imu1_ok := c.imu1_ok
      sens_bmp1_ok := c.bmp1_ok
      sens_imu2_ok := c.imu2_ok
      tilt_ok := !c.tilt_latched &&
        (match i.tilt_deg with
         | some t => decide (t ≤ FC_TILT_ABORT_DEG)
         | none => false)
      tilt_latch := c.tilt_latched } }

/-- `update_flags` (fc_core.cpp:60-128): sensors, tilt, Mach gate,
    baro agreement, instantaneous flags, in source order. -/
def update_flags (cth : ℚ) (c : FcCoreCtx) (st : FcStatics) (i : FcInputs) :
    FcCoreCtx × FcStatics × Option ℚ :=
  let c1 := sensors_block c i
  let c2 := tilt_block c1 i
  let m := mach_block cth c2 st i
  let a := agree_block m.1 m.2.1 i
  (inst_flags a.1 i, a.2, m.2.2)

/-! ## update_fsm (fc_core.cpp:130-214) -/

/-- Liftoff OR-condition (fc_core.cpp:133-136). -/
def liftoff_cond (i : FcInputs) : Bool :=
  (match i.vz_fused_mps with
   | some v => decide (FC_VZ_LIFTOFF_MPS < v)
   | none => false) ||
  (match i.az_imu1_mps2 with
   | some a => decide (FC_AZ_LIFTOFF_MPS2 < a)
   | none => false) ||
  (match i.agl_fused_m with
   | some h => decide (FC_LIFTOFF_MIN_AGL_M ≤ h)
   | none => false)

/-- Liftoff one-shot (fc_core.cpp:137-150).  `liftoff_latched` is a
    function-local static. -/
def liftoff_block (c : FcCoreCtx) (st : FcStatics) (i : FcInputs) :
    FcCoreCtx × FcStatics :=
  if !st.liftoff_latched then
    if liftoff_cond i then
      let acc := c.liftoff_acc_ms + i.dt_ms
      if FC_LIFTOFF_DWELL_MS ≤ acc then
        ({ c with liftoff_acc_ms := acc, t_launch_ms := i.now_ms,
                  flags.liftoff_det := true },
         { st with liftoff_latched := true })
      else ({ c with liftoff_acc_ms := acc }, st)
    else ({ c with liftoff_acc_ms := 0 }, st)
  else (c, st)

/-- Burnout one-shot (fc_core.cpp:152-166); only runs after the liftoff
    latch of the same tick. -/
def burnout_block (c : FcCoreCtx) (st : FcStatics) (i : FcInputs) :
    FcCoreCtx × FcStatics :=
  if st.liftoff_latched && !st.burnout_latched then
    match i.az_imu1_mps2 with
    | some a =>
      if a ≤ FC_BURNOUT_AZ_DONE_MPS2 then
        let acc := c.burnout_acc_ms + i.dt_ms
        if FC_BURNOUT_DWELL_MS ≤ acc then
          ({ c with burnout_acc_ms := acc, t_burnout_ms := i.now_ms,
                    flags.burnout_det := true },
           { st with burnout_latched := true })
        else ({ c with burnout_acc_ms := acc }, st)
      else ({ c with burnout_acc_ms := 0 }, st)
    | none => ({ c with burnout_acc_ms := 0 }, st)
  else (c, st)

/-- One FSM switch step (fc_core.cpp:168-213). -/
def fsm_switch (c : FcCoreCtx) (st : FcStatics) (i : FcInputs) : FcCoreCtx :=
  match c.state with
  | FC_PREFLIGHT =>
    if c.tilt_latched then { c with state := FC_ABORT_LOCKOUT, t_state_ms := i.now_ms }
    else if st.liftoff_latched then { c with state := FC_BOOST, t_state_ms := i.now_ms }
    else c
  | FC_BOOST =>
    if c.tilt_latched then { c with state := FC_ABORT_LOCKOUT, t_state_ms := i.now_ms }
    else if st.burnout_latched then { c with state := FC_POST_BURN_HOLD, t_state_ms := i.now_ms }
    else c
  | FC_POST_BURN_HOLD =>
    if c.tilt_latched then { c with state := FC_ABORT_LOCKOUT, t_state_ms := i.now_ms }
    else if FC_BURNOUT_HOLD_MS ≤ i.now_ms - c.t_state_ms then
      { c with state := FC_WINDOW, t_state_ms := i.now_ms }
    else c
  | FC_WINDOW =>
    if c.tilt_latched then { c with state := FC_ABORT_LOCKOUT, t_state_ms := i.now_ms }
    else
      let gates := c.flags.sens_imu1_ok && c.flags.sens_bmp1_ok &&
                   c.flags.tilt_ok && c.flags.mach_ok
      match i.agl_fused_m with
      | some agl =>
        if FC_MIN_DEPLOY_AGL_M ≤ agl then
          match i.apogee_agl_m with
          | some apo =>
            if FC_TARGET_APOGEE_AGL_M + FC_APOGEE_HIGH_MARGIN_M ≤ apo then
              if gates then
                { c with state := FC_DEPLOYED, t_deploy_ms := i.now_ms, t_state_ms := i.now_ms }
              else c
            else c
          | none => c
        else c
      | none => c
  | FC_DEPLOYED =>
    if c.tilt_latched then { c with state := FC_ABORT_LOCKOUT, t_state_ms := i.now_ms }
    else
      match i.t_apogee_s with
      | some ta =>
        if ta ≤ FC_RETRACT_BEFORE_APOGEE_S then
          { c with state := FC_RETRACTING, t_state_ms := i.now_ms }
        else if 0 < c.t_launch_ms &&
                decide (FC_EXPECTED_TTA_S * FC_EXPECTED_TTA_SCALE_TIMEOUT <
                        ((i.now_ms - c.t_launch_ms : Nat) : ℚ) / 1000) then
          { c with state := FC_RETRACTING, t_state_ms := i.now_ms }
        else c
      | none =>
        if 0 < c.t_launch_ms &&
           decide (FC_EXPECTED_TTA_S * FC_EXPECTED_TTA_SCALE_TIMEOUT <
                   ((i.now_ms - c.t_launch_ms : Nat) : ℚ) / 1000) then
          { c with state := FC_RETRACTING, t_state_ms := i.now_ms }
        else c
  | FC_RETRACTING => { c with state := FC_LOCKED, t_state_ms := i.now_ms }
  | FC_LOCKED => c
  | FC_ABORT_LOCKOUT => c
  | _ => { c with state := FC_SAFE, t_state_ms := i.now_ms }

/-- `update_fsm` (fc_core.cpp:130-214). -/
def update_fsm (c : FcCoreCtx) (st : FcStatics) (i : FcInputs) :
    FcCoreCtx × FcStatics :=
  let l := liftoff_block c st i
  let b := burnout_block l.1 l.2 i
  (fsm_switch b.1 b.2 i, b.2)

/-- `fc_step` (fc_core.cpp:34-54): flags, FSM, airbrake command, outputs. -/
def fc_step (cth : ℚ) (c : FcCoreCtx) (st : FcStatics) (i : FcInputs) :
    FcCoreCtx × FcStatics × FcOutputs :=
  let f := update_flags cth c st i
  let u := update_fsm f.1 f.2.1 i
  let cmd : ℚ := match u.1.state with
                 | FC_DEPLOYED => FC_DEPLOY_CMD_DEG
                 | _ => 0
  (u.1, u.2,
   { state := u.1.state
     flags := u.1.flags
     airbrake_cmd_deg := cmd
     t_to_apogee_s := i.t_apogee_s
     t_since_launch_s :=
       if 0 < u.1.t_launch_ms then ((i.now_ms - u.1.t_launch_ms : Nat) : ℚ) / 1000 else 0
     mach_cons := f.2.2
     tilt_deg := i.tilt_deg })

/-- State-only view of one `fc_step`. -/
def fcStepS (cth : ℚ) (s : FcCoreCtx × FcStatics) (i : FcInputs) :
    FcCoreCtx × FcStatics :=
  let r := fc_step cth s.1 s.2 i
  (r.1, r.2.1)

/-- Fold of `fc_step` over an input trace. -/
def fcRun (cth : ℚ) (s : FcCoreCtx × FcStatics) (l : List FcInputs) :
    FcCoreCtx × FcStatics :=
  l.foldl (fcStepS cth) s

/-! ## Fusion engine (services/fusion.cpp, fusion_task loop body)

The attitude / tilt-azimuth block (fusion.cpp:265-337) feeds only the
yaw/pitch/roll/tilt outputs, which no claim mentions; it reads none of the
state used below and is omitted from the embedding.  `sqrtf` has no exact
rational counterpart, so the step takes a parameter
`sqrtQ : ℚ → Option ℚ` standing for it (`none` = NaN for negative
arguments); likewise `cosDeploy : ℚ` stands for the float constant
`cosf(TILT_MAX_DEPLOY_DEG * 0.01745329252f)`. -/

/-- `rotate_vec_by_quat` (fusion.cpp:30-48): body→earth rotation. -/
def rotate_vec_by_quat (w x y z vx vy vz : ℚ) : ℚ × ℚ × ℚ :=
  let r00 := 1 - 2 * (y * y + z * z)
  let r01 := 2 * (x * y - w * z)
  let r02 := 2 * (x * z + w * y)
  let r10 := 2 * (x * y + w * z)
  let r11 := 1 - 2 * (x * x + z * z)
  let r12 := 2 * (y * z - w * x)
  let r20 := 2 * (x * z - w * y)
  let r21 := 2 * (y * z + w * x)
  let r22 := 1 - 2 * (x * x + y * y)
  (r00 * vx + r01 * vy + r02 * vz,
   r10 * vx + r11 * vy + r12 * vz,
   r20 * vx + r21 * vy + r22 * vz)

/-- C `fminf`: with a NaN operand returns the other operand. -/
def fminfO : Option ℚ → Option ℚ → Option ℚ
  | some a, some b => some (min a b)
  | some a, none => some a
  | none, some b => some b
  | none, none => none

/-- C `fmaxf` with a finite first operand: a NaN second operand yields the
    first. -/
def fmaxfQ (a : ℚ) : Option ℚ → ℚ
  | none => a
  | some b => max a b

/-- Function-local statics and module globals of `fusion_task`
    (fusion.cpp:50-82).  `prev_alt` is initialised to NaN in the source but
    is only ever read under `have_prev_alt`, so it is modelled as a plain
    `ℚ` starting at 0; `vz_acc` is a float that is never NaN (it is only
    assigned finite arithmetic results). -/
structure FusionState where
  have_prev_alt : Bool
  prev_alt : ℚ
  prev_ms : Nat
  vz_filt : Option ℚ
  vz_acc : ℚ
  have_sos_refs : Bool
  sos_ground_mps : Option ℚ
  sos_10kft_mps : Option ℚ
  sos_min_mps : ℚ
  agl_ready : Bool
  agl_arm_ms : Nat
  base_bmp1_m : Option ℚ
  base_imu1_m : Option ℚ
  deriving DecidableEq, Repr

/-- Power-on initial fusion state; the soft-reset block
    (fusion.cpp:86-111) restores exactly these values. -/
def FusionState.init : FusionState where
  have_prev_alt := false
  prev_alt := 0
  prev_ms := 0
  vz_filt := none
  vz_acc := 0
  have_sos_refs := false
  sos_ground_mps := none
  sos_10kft_mps := none
  sos_min_mps := SOS_MIN_FLOOR_MPS
  agl_ready := false
  agl_arm_ms := 0
  base_bmp1_m := none
  base_imu1_m := none

/-- Per-tick sensor reads of the fusion task (fusion.cpp:112-120):
    `vb`/`vi` are `bmp1Get(b) && b.valid` and `imu1Get(u1) && u1.valid`;
    reading fields are the validated driver outputs. -/
structure FusionIn where
  now : Nat
  vb : Bool
  bmp_temperature_c : ℚ
  bmp_pressure_pa : ℚ
  bmp_altitude_m : ℚ
  vi : Bool
  quat_w : ℚ
  quat_x : ℚ
  quat_y : ℚ
  quat_z : ℚ
  accel_x_g : ℚ
  accel_y_g : ℚ
  accel_z_g : ℚ
  imu_altitude_m : ℚ
  deriving DecidableEq, Repr

/-- The `FusedAlt` snapshot fields published at the end of a tick
    (fusion.cpp:368-396), minus the omitted attitude fields. -/
structure FusionOut where
  stamp_ms : Nat
  bmp1_alt_m : Option ℚ
  imu1_alt_m : Option ℚ
  agl_bmp1_m : Option ℚ
  agl_imu1_m : Option ℚ
  agl_fused_m : Option ℚ
  agl_ready : Bool
  vz_mps : Option ℚ
  vz_acc_mps : ℚ
  vz_fused_mps : Option ℚ
  az_imu1_mps2 : Option ℚ
  temp_c : Option ℚ
  press_hPa : Option ℚ
  sos_mps : Option ℚ
  mach_vz : Option ℚ
  sos_ground_mps : Option ℚ
  sos_10kft_mps : Option ℚ
  sos_min_mps : ℚ
  mach_cons : Option ℚ
  t_apogee_s : Option ℚ
  apogee_agl_m : Option ℚ
  deriving DecidableEq, Repr

/-- Result of the vertical-speed-from-AGL-derivative block
    (fusion.cpp:158-191). -/
structure VzStep where
  have_prev : Bool
  prev_alt : ℚ
  prev_ms : Nat
  vz_filt : Option ℚ
  vz : Option ℚ
  dt_s : Option ℚ
  deriving DecidableEq, Repr

/-- Baro-derivative vertical speed with EMA (fusion.cpp:158-191). -/
def vz_block (s : FusionState) (now : Nat) (ready : Bool)
    (agl_fused : Option ℚ) : VzStep :=
  match agl_fused, ready with
  | some agl, true =>
    if s.have_prev_alt then
      let dt0 : ℚ := ((now - s.prev_ms : Nat) : ℚ)
      let dt1 := if dt0 < 1 then 1 else dt0
      let dtms := if FUSION_VZ_MAX_DT_MS < dt1 then FUSION_VZ_MAX_DT_MS else dt1
      let dts := dtms / 1000
      let inst := (agl - s.prev_alt) / dts
      let vzf0 := match s.vz_filt with
                  | none => inst
                  | some v => v
      let vzf := FUSION_VZ_ALPHA * vzf0 + (1 - FUSION_VZ_ALPHA) * inst
      ⟨true, agl, now, some vzf, some vzf, some dts⟩
    else
      ⟨true, agl, now, s.vz_filt, none, none⟩
  | _, _ => ⟨false, s.prev_alt, s.prev_ms, none, none, none⟩

/-- Complementary vz fusion (fusion.cpp:339-352); `vz_acc` is never NaN,
    so the third source branch applies whenever `vz` is NaN. -/
def vz_fuse (vz : Option ℚ) (vz_acc : ℚ) : Option ℚ :=
  match vz with
  | some v => some (FUSION_VZ_FUSE_BETA * v + (1 - FUSION_VZ_FUSE_BETA) * vz_acc)
  | none => some vz_acc

/-- One tick of `fusion_task` (fusion.cpp:112-401), without a pending
    soft-reset request. -/
def fusion_step (sqrtQ : ℚ → Option ℚ) (cosDeploy : ℚ)
    (s : FusionState) (i : FusionIn) : FusionState × FusionOut :=
  let bmp_alt : Option ℚ := if i.vb then some i.bmp_altitude_m else none
  let imu_alt : Option ℚ := if i.vi then some i.imu_altitude_m else none
  let arm := if s.agl_arm_ms = 0 then i.now + ZERO_AGL_AFTER_MS else s.agl_arm_ms
  let ready := s.agl_ready || decide (arm ≤ i.now)
  let base_bmp := if ready then
      (match s.base_bmp1_m, bmp_alt with
       | none, some a => some a
       | b, _ => b)
    else s.base_bmp1_m
  let base_imu := if ready then
      (match s.base_imu1_m, imu_alt with
       | none, some a => some a
       | b, _ => b)
    else s.base_imu1_m
  let agl_bmp : Option ℚ := if ready then
      match base_bmp, bmp_alt with
      | some b, some a => some (a - b)
      | _, _ => none
    else none
  let agl_imu : Option ℚ := if ready then
      match base_imu, imu_alt with
      | some b, some a => some (a - b)
      | _, _ => none
    else none
  let agl_fused : Option ℚ :=
    match agl_bmp, agl_imu with
    | some x, some y => some (FUSION_W_BMP1 * x + FUSION_W_IMU1 * y)
    | some x, none => some x
    | none, some y => some y
    | none, none => none
  let v := vz_block s i.now ready agl_fused
  -- Vertical accel from IMU1 and leaky integration (fusion.cpp:193-215)
  let az : Option ℚ :=
    if i.vi then
      let e := rotate_vec_by_quat i.quat_w i.quat_x i.quat_y i.quat_z
                 (i.accel_x_g * G0) (i.accel_y_g * G0) (i.accel_z_g * G0)
      some (e.2.2 - G0)
    else none
  let vz_acc : ℚ :=
    if i.vi then
      match az with
      | some a =>
        if v.have_prev then
          let dt := match v.dt_s with
                    | none => FUSION_VZ_MAX_DT_MS / 1000
                    | some d => d
          (1 - 2/100) * s.vz_acc + a * dt
        else 0
      | none => if v.have_prev then s.vz_acc else 0
    else s.vz_acc
  -- Atmospherics (fusion.cpp:217-229)
  let temp_c : Option ℚ := if i.vb then some i.bmp_temperature_c else none
  let press_hPa : Option ℚ := if i.vb then some (i.bmp_pressure_pa / 100) else none
  let sos : Option ℚ :=
    match temp_c with
    | some t => sqrtQ ((14/10) * (28705/100) * (t + 27315/100))
    | none => none
  let mach_vz : Option ℚ :=
    match sos, v.vz with
    | some sv, some vv => some (fabsf vv / sv)
    | _, _ => none
  -- Conservative SoS references, captured once (fusion.cpp:231-244)
  let refs : Bool × Option ℚ × Option ℚ × ℚ :=
    if !s.have_sos_refs && i.vb then
      let T0 := i.bmp_temperature_c + 27315/100
      let g := sqrtQ ((14/10) * (28705/100) * T0)
      let T10k0 := T0 - SOS_10KFT_DELTA_K
      let T10k := if T10k0 < 150 then 150 else T10k0
      let k := sqrtQ ((14/10) * (28705/100) * T10k)
      (true, g, k, fmaxfQ SOS_MIN_FLOOR_MPS (fminfO g k))
    else (s.have_sos_refs, s.sos_ground_mps, s.sos_10kft_mps, s.sos_min_mps)
  -- Apogee prediction (fusion.cpp:249-263); note it uses the baro-EMA vz
  let pred : Option ℚ × Option ℚ :=
    match agl_fused, v.vz, ready with
    | some agl, some vv, true =>
      if 0 < vv then
        (some (FUSION_SAFE_TAPX_FACTOR * (vv / G0)),
         some (agl + FUSION_SAFE_ZAPX_FACTOR * (vv * vv) / (2 * G0)))
      else
        (some 0, some agl)
    | _, _, _ => (none, none)
  let vzF := vz_fuse v.vz vz_acc
  -- Conservative Mach proxy (fusion.cpp:354-362)
  let mach_cons : Option ℚ :=
    match vzF with
    | some vv =>
      if refs.1 then
        let c := if cosDeploy < 1/10 then 1/10 else cosDeploy
        some (fabsf vv / c / refs.2.2.2)
      else none
    | none => none
  ({ have_prev_alt := v.have_prev
     prev_alt := v.prev_alt
     prev_ms := v.prev_ms
     vz_filt := v.vz_filt
     vz_acc := vz_acc
     have_sos_refs := refs.1
     sos_ground_mps := refs.2.1
     sos_10kft_mps := refs.2.2.1
     sos_min_mps := refs.2.2.2
     agl_ready := ready
     agl_arm_ms := arm
     base_bmp1_m := base_bmp
     base_imu1_m := base_imu },
   { stamp_ms := i.now
     bmp1_alt_m := bmp_alt
     imu1_alt_m := imu_alt
     agl_bmp1_m := agl_bmp
     agl_imu1_m := agl_imu
     agl_fused_m := agl_fused
     agl_ready := ready
     vz_mps := v.vz
     vz_acc_mps := vz_acc
     vz_fused_mps := vzF
     az_imu1_mps2 := az
     temp_c := temp_c
     press_hPa := press_hPa
     sos_mps := sos
     mach_vz := mach_vz
     sos_ground_mps := refs.2.1
     sos_10kft_mps := refs.2.2.1
     sos_min_mps := refs.2.2.2
     mach_cons := mach_cons
     t_apogee_s := pred.1
     apogee_agl_m := pred.2 })

/-- State-only view of one fusion tick. -/
def fusionStepS (sqrtQ : ℚ → Option ℚ) (cosDeploy : ℚ)
    (s : FusionState) (i : FusionIn) : FusionState :=
  (fusion_step sqrtQ cosDeploy s i).1

/-- Fold of fusion ticks over an input trace (no soft-reset requests). -/
def fusionRun (sqrtQ : ℚ → Option ℚ) (cosDeploy : ℚ)
    (s : FusionState) (l : List FusionIn) : FusionState :=
  l.foldl (fusionStepS sqrtQ cosDeploy) s

/-! ## fc_task and fcSoftReset (firmware fc service, fusion.cpp pack
    lines 459-540 of the fc service unit) -/

/-- An event seen by the FC service: a periodic tick, or an asynchronous
    `fcSoftReset` taking effect between ticks. -/
inductive FcEvent
  | tick (i : FcInputs)
  | soft_reset
  deriving Repr

/-- One FC-service event.  `fcSoftReset` does
    `memset(&s_ctx, 0, sizeof(s_ctx))` (state becomes 0 = `FC_SAFE`) and
    clears `s_core_inited`; the function-local statics of
    `update_flags`/`update_fsm` are untouched.  The only
    `if (!s_core_inited) fc_init(s_ctx)` check sits BEFORE the `for(;;)`
    loop of `fc_task`, so once the task is running a cleared
    `s_core_inited` is never re-examined and `fc_init` is not re-run:
    ticks after a reset simply continue from the memset image. -/
def fcTaskStep (cth : ℚ) (s : FcCoreCtx × FcStatics) : FcEvent → FcCoreCtx × FcStatics
  | .tick i => fcStepS cth s i
  | .soft_reset => (fcCtxZero, s.2)

/-- FC-service run from power-on: `fc_task` performs `fc_init` once before
    its loop, the statics are zero-initialised at load time. -/
def fcTaskRun (cth : ℚ) (evs : List FcEvent) : FcCoreCtx × FcStatics :=
  evs.foldl (fcTaskStep cth) (fc_init, FcStatics.init)

/-! ## Telemetry CRC (telemetry.cpp:42-56 and 204-208)

A record's serialized bytes are modelled as a `List Nat` of byte values;
the CRC field covers `sizeof(rec) - sizeof(rec.crc32)` bytes, i.e. exactly
the bytes preceding the field. -/

/-- One bit-round of the source loop (telemetry.cpp:49-53):
    `mask = -(crc & 1); crc = (crc >> 1) ^ (0xEDB88320 & mask)` in uint32
    arithmetic. -/
def crc32_round (crc : Nat) : Nat :=
  let mask := if crc % 2 = 1 then 0xFFFFFFFF else 0
  Nat.xor (crc / 2) (Nat.land 0xEDB88320 mask)

/-- `crc32_update` (telemetry.cpp:42-56): entry XOR with 0xFFFFFFFF, per
    byte XOR-in plus eight bit-rounds, exit XOR with 0xFFFFFFFF. -/
def crc32_update (crc : Nat) (data : List Nat) : Nat :=
  Nat.xor
    (data.foldl (fun c b => crc32_round^[8] (Nat.xor c b))
      (Nat.xor crc 0xFFFFFFFF))
    0xFFFFFFFF

/-- The CRC the spec prescribes, written from the spec's words alone:
    reflected IEEE CRC-32, polynomial 0xEDB88320, initial value
    0xFFFFFFFF, final XOR 0xFFFFFFFF (shift right once per bit, XOR the
    polynomial in when the ejected low bit is set). -/
def crcSpecRound (c : Nat) : Nat :=
  if Nat.testBit c 0 then Nat.xor (c / 2) 0xEDB88320 else c / 2

def crcSpecByte (c b : Nat) : Nat := crcSpecRound^[8] (Nat.xor c b)

def crc32_ieee_reflected (data : List Nat) : Nat :=
  Nat.xor (data.foldl crcSpecByte 0xFFFFFFFF) 0xFFFFFFFF

/-- The crc32-field assignment at the end of `telemetry_build`
    (telemetry.cpp:204-208): `crc32_update(0, bytes-before-the-field)`
    when `LOG_INCLUDE_CRC` is set, else 0. -/
def telemetry_record_crc (crc_enabled : Bool) (body : List Nat) : Nat :=
  if crc_enabled then crc32_update 0 body else 0

/-- A stored CRC verifies when recomputing the CRC of the preceding bytes
    reproduces it. -/
def crc_verifies (body : List Nat) (stored : Nat) : Prop :=
  crc32_update 0 body = stored

/-! ## Servo controller (task_servo_ctrl, normal FSM-driven mode) -/

/-- Servo task state: the stall-watchdog stamp plus the actuator command
    state written through `servoOpen`/`servoClose`. -/
structure ServoState where
  last_stamp : Nat
  s_open : Bool
  s_cmd_us : Nat
  deriving DecidableEq, Repr

/-- The telemetry-record fields `task_servo_ctrl` reads. -/
structure ServoTelemetry where
  timestamp_ms : Nat
  sens_imu1_ok : Bool
  sens_bmp1_ok : Bool
  sens_imu2_ok : Bool
  tilt_latch : Bool
  fc_state : FcState
  fc_t_to_apogee_s : Option ℚ
  agl_ready : Bool
  mach_cons : Option ℚ
  deriving DecidableEq, Repr

/-- `servoWriteUS`: clamp to `[s_min_us, s_max_us]` (fixed endpoints in
    normal mode) and latch the commanded pulse width. -/
def servoWriteUS (us : Nat) : Nat :=
  let us1 := if us < SERVO_MIN_US then SERVO_MIN_US else us
  if SERVO_MAX_US < us1 then SERVO_MAX_US else us1

def servoOpen (s : ServoState) : ServoState :=
  { s with s_open := true, s_cmd_us := servoWriteUS SERVO_MAX_US }

def servoClose (s : ServoState) : ServoState :=
  { s with s_open := false, s_cmd_us := servoWriteUS SERVO_MIN_US }

/-- Servo task start state: `servoInit`'s boot sweep ends in
    `servoClose()`, and `last_stamp` starts at 0. -/
def ServoState.init : ServoState := ⟨0, false, SERVO_MIN_US⟩

/-- One tick of `task_servo_ctrl`: stall watchdog first (timestamp zero or
    unchanged commands `servoClose` and skips the deploy logic), then the
    should-open derivation and edge-triggered actuation. -/
def task_servo_ctrl_step (s : ServoState) (rec : ServoTelemetry) : ServoState :=
  if rec.timestamp_ms = 0 || rec.timestamp_ms = s.last_stamp then
    servoClose s
  else
    let s1 := { s with last_stamp := rec.timestamp_ms }
    let health_ok := rec.sens_imu1_ok && rec.sens_bmp1_ok &&
                     rec.sens_imu2_ok && rec.agl_ready
    let tilt_ok := !rec.tilt_latch
    let mach_ok := match rec.mach_cons with
                   | some m => decide (m < 1/2)
                   | none => false
    let in_window := decide (rec.fc_state = FC_WINDOW)
    let post_burn := decide (rec.fc_state ≠ FC_BOOST)
    let abort_or_lock := decide (rec.fc_state = FC_ABORT_LOCKOUT) ||
                         decide (rec.fc_state = FC_LOCKED)
    let near_apogee := match rec.fc_t_to_apogee_s with
                       | some t => decide (t ≤ 1)
                       | none => false
    let so0 := !abort_or_lock && health_ok && tilt_ok && mach_ok &&
               post_burn && in_window
    let should_open := if abort_or_lock || !health_ok || !tilt_ok || near_apogee
                       then false else so0
    if should_open != s1.s_open then
      (if should_open then servoOpen s1 else servoClose s1)
    else s1

/-- Servo task run over a sequence of observed telemetry records. -/
def servoRun (recs : List ServoTelemetry) : ServoState :=
  recs.foldl task_servo_ctrl_step ServoState.init

/-! ## Trace-level specification functions and concrete scenario inputs -/

/-- Accumulated time, over a processed input prefix, of speed samples whose
    conservative-Mach value lies below `FC_MACH_MAX_FOR_DEPLOY`, reset by
    any sample above `FC_MACH_MAX_FOR_DEPLOY + FC_MACH_HYST`; samples in
    between, and NaN speed samples, leave the tally unchanged.  This is the
    trace-level meaning of `mach_ok_acc_ms`. -/
def machCredit (cth : ℚ) (l : List FcInputs) : Nat :=
  l.foldl (fun acc i =>
    match machOf cth i with
    | none => acc
    | some m =>
      if m < FC_MACH_MAX_FOR_DEPLOY then acc + i.dt_ms
      else if FC_MACH_MAX_FOR_DEPLOY + FC_MACH_HYST < m then 0
      else acc) 0

/-- A concrete instantiation of the `sqrtf` parameter (the claims settled
    here never depend on the value returned for non-negative inputs). -/
def sqrtTest : ℚ → Option ℚ := fun x => if x < 0 then none else some 20

/-- Rational stand-in for `cosf(TILT_MAX_DEPLOY_DEG·π/180)` ≈ cos 20°. -/
def COS20 : ℚ := 9396926/10000000

/-- Rational stand-in for `cosf(FC_TILT_ABORT_DEG·π/180)` ≈ cos 30°. -/
def COS30 : ℚ := 866/1000

/-- A quiescent FC tick: nothing valid, every float NaN. -/
def fcInQuiet (now : Nat) : FcInputs :=
  ⟨100, now, none, none, none, none, none, none, none, false,
   none, none, false, false, false⟩

/-- An in-flight FC tick: all sensors valid and agreeing, still air
    (`vz = 0`, `az = 0`), high AGL and predicted apogee, with the tilt
    sample and the time-to-apogee chosen per scenario. -/
def fcInFlight (now : Nat) (tilt tap : Option ℚ) : FcInputs :=
  ⟨100, now, tilt, some 210, some 0, some 0, some 0, tap, some 4000, true,
   some 0, some 0, true, true, true⟩

/-- Scenario for C2: fly `PREFLIGHT → … → DEPLOYED`, retract at t = 2000,
    and complete the 200 ms tilt-abort dwell exactly on the tick that
    starts from `FC_RETRACTING` (tilt ≥ 30° from t = 2000 on). -/
def c2trace : List FcInputs :=
  (List.range 19).map (fun k => fcInFlight (100 * (k + 1)) (some 0) (some 10)) ++
  [fcInFlight 2000 (some 45) (some 4), fcInFlight 2100 (some 45) (some 4),
   fcInFlight 2200 (some 45) (some 4), fcInFlight 2300 (some 45) (some 4)]

/-- Scenario tick for C5: liftoff conditions present (AGL 10 m ≥ 5 m),
    sensors valid and agreeing, burnout-grade `az = 0`. -/
def c5liftoff (now : Nat) : FcInputs :=
  ⟨100, now, some 0, some 10, some 0, some 0, some 0, some 10, some 100, true,
   some 0, some 0, true, true, true⟩

/-- Scenario for C5: five flight ticks (liftoff, burnout, Mach-OK and
    baro-agreement one-shots all fire), then `fcSoftReset`, then a
    quiescent tick and two more liftoff-condition ticks. -/
def c5events : List FcEvent :=
  [.tick (c5liftoff 100), .tick (c5liftoff 200), .tick (c5liftoff 300),
   .tick (c5liftoff 400), .tick (c5liftoff 500), .soft_reset,
   .tick (fcInQuiet 600), .tick (c5liftoff 700), .tick (c5liftoff 800)]

/-- Scenario tick for C6: only a fused vertical speed, chosen so that with
    `cth = COS30` and `FC_SOS_FIXED_MPS = 300` the Mach sample is exact. -/
def c6in (vz : ℚ) : FcInputs :=
  ⟨100, 0, none, none, some vz, none, none, none, none, false,
   none, none, false, false, false⟩

/-- Scenario for C6: Mach 0.40 for 200 ms, one 100 ms sample at Mach 0.51
    (inside the hysteresis dead zone), then Mach 0.40 again; the gate turns
    ON at the fourth tick with only 200 ms of contiguous sub-0.50 time. -/
def c6trace : List FcInputs :=
  [c6in (2598/25), c6in (2598/25), c6in (66249/500), c6in (2598/25)]

/-- Fusion tick with both sensors invalid (warm-up / dead-sensor ticks). -/
def fuInInvalid (now : Nat) : FusionIn :=
  ⟨now, false, 15, 101325, 100, false, 1, 0, 0, 0, 0, 0, 1, 0⟩

/-- Fusion tick with only the external barometer valid, reading altitude
    `alt` at 15 °C. -/
def fuInBmp (now : Nat) (alt : ℚ) : FusionIn :=
  ⟨now, true, 15, 101325, alt, false, 1, 0, 0, 0, 0, 0, 1, 0⟩

/-- Scenario for C4: warm-up tick, baseline tick at t = 10000 (altitude
    100 m), then a tick 20 ms later with the barometer 0.2 m higher, which
    primes `vz = 10 m/s` while `vz_fused = 2 m/s`. -/
def c4trace2 : List FusionIn := [fuInInvalid 0, fuInBmp 10000 100]

def c4in3 : FusionIn := fuInBmp 10020 (501/5)

/-! ## Frame lemmas for the update_flags / update_fsm blocks -/

set_option linter.unnecessarySeqFocus false
set_option linter.unusedTactic false

theorem sensors_block_state (c : FcCoreCtx) (i : FcInputs) :
    (sensors_block c i).state = c.state := rfl

theorem sensors_block_flags (c : FcCoreCtx) (i : FcInputs) :
    (sensors_block c i).flags = c.flags := rfl

theorem sensors_block_tilt_latched (c : FcCoreCtx) (i : FcInputs) :
    (sensors_block c i).tilt_latched = c.tilt_latched := rfl

theorem sensors_block_mach_acc (c : FcCoreCtx) (i : FcInputs) :
    (sensors_block c i).mach_ok_acc_ms = c.mach_ok_acc_ms := rfl

theorem tilt_block_state (c : FcCoreCtx) (i : FcInputs) :
    (tilt_block c i).state = c.state := by
  unfold tilt_block
  cases htd : i.tilt_deg
  all_goals try simp only [htd]
  all_goals try rfl
  all_goals split_ifs
  all_goals rfl

theorem tilt_block_flags (c : FcCoreCtx) (i : FcInputs) :
    (tilt_block c i).flags = c.flags := by
  unfold tilt_block
  cases htd : i.tilt_deg
  all_goals try simp only [htd]
  all_goals try rfl
  all_goals split_ifs
  all_goals rfl

theorem tilt_block_mach_acc (c : FcCoreCtx) (i : FcInputs) :
    (tilt_block c i).mach_ok_acc_ms = c.mach_ok_acc_ms := by
  unfold tilt_block
  cases htd : i.tilt_deg
  all_goals try simp only [htd]
  all_goals try rfl
  all_goals split_ifs
  all_goals rfl

theorem tilt_block_latch_mono (c : FcCoreCtx) (i : FcInputs)
    (h : c.tilt_latched = true) : (tilt_block c i).tilt_latched = true := by
  unfold tilt_block
  cases htd : i.tilt_deg
  all_goals try simp only [htd]
  all_goals try exact h
  all_goals split_ifs
  all_goals first | rfl | exact h

theorem mach_block_ctx_state (cth : ℚ) (c : FcCoreCtx) (st : FcStatics) (i : FcInputs) :
    (mach_block cth c st i).1.state = c.state := by
  unfold mach_block
  cases h : machOf cth i
  all_goals try simp only [h]
  all_goals try rfl
  all_goals split_ifs
  all_goals rfl

theorem mach_block_tilt_latched (cth : ℚ) (c : FcCoreCtx) (st : FcStatics) (i : FcInputs) :
    (mach_block cth c st i).1.tilt_latched = c.tilt_latched := by
  unfold mach_block
  cases h : machOf cth i
  all_goals try simp only [h]
  all_goals try rfl
  all_goals split_ifs
  all_goals rfl

theorem mach_block_baro_agree (cth : ℚ) (c : FcCoreCtx) (st : FcStatics) (i : FcInputs) :
    (mach_block cth c st i).1.flags.baro_agree = c.flags.baro_agree := by
  unfold mach_block
  cases h : machOf cth i
  all_goals try simp only [h]
  all_goals try rfl
  all_goals split_ifs
  all_goals rfl

theorem mach_block_agree_acc (cth : ℚ) (c : FcCoreCtx) (st : FcStatics) (i : FcInputs) :
    (mach_block cth c st i).2.1.agree_acc = st.agree_acc := by
  unfold mach_block
  cases h : machOf cth i
  all_goals try simp only [h]
  all_goals try rfl
  all_goals split_ifs
  all_goals rfl

theorem agree_block_ctx_state (c : FcCoreCtx) (st : FcStatics) (i : FcInputs) :
    (agree_block c st i).1.state = c.state := by
  unfold agree_block
  split
  all_goals try rfl
  all_goals cases h1 : i.bmp1_altitude_m <;> cases h2 : i.imu1_altitude_m
  all_goals try simp only [h1, h2]
  all_goals try rfl
  all_goals split_ifs
  all_goals rfl

theorem agree_block_tilt_latched (c : FcCoreCtx) (st : FcStatics) (i : FcInputs) :
    (agree_block c st i).1.tilt_latched = c.tilt_latched := by
  unfold agree_block
  split
  all_goals try rfl
  all_goals cases h1 : i.bmp1_altitude_m <;> cases h2 : i.imu1_altitude_m
  all_goals try simp only [h1, h2]
  all_goals try rfl
  all_goals split_ifs
  all_goals rfl

theorem agree_block_mach_flag (c : FcCoreCtx) (st : FcStatics) (i : FcInputs) :
    (agree_block c st i).1.flags.mach_ok = c.flags.mach_ok := by
  unfold agree_block
  split
  all_goals try rfl
  all_goals cases h1 : i.bmp1_altitude_m <;> cases h2 : i.imu1_altitude_m
  all_goals try simp only [h1, h2]
  all_goals try rfl
  all_goals split_ifs
  all_goals rfl

theorem agree_block_mach_acc (c : FcCoreCtx) (st : FcStatics) (i : FcInputs) :
    (agree_block c st i).1.mach_ok_acc_ms = c.mach_ok_acc_ms := by
  unfold agree_block
  split
  all_goals try rfl
  all_goals cases h1 : i.bmp1_altitude_m <;> cases h2 : i.imu1_altitude_m
  all_goals try simp only [h1, h2]
  all_goals try rfl
  all_goals split_ifs
  all_goals rfl

theorem agree_block_mach_state (c : FcCoreCtx) (st : FcStatics) (i : FcInputs) :
    (agree_block c st i).2.mach_ok_state = st.mach_ok_state := by
  unfold agree_block
  split
  all_goals try rfl
  all_goals cases h1 : i.bmp1_altitude_m <;> cases h2 : i.imu1_altitude_m
  all_goals try simp only [h1, h2]
  all_goals try rfl
  all_goals split_ifs
  all_goals rfl

/-- When the guard of the baro-agreement gate fails, the whole block is a
    no-op (fc_core.cpp:109). -/
theorem agree_block_skip (c : FcCoreCtx) (st : FcStatics) (i : FcInputs)
    (h : ¬(i.bmp1_valid = true ∧ i.imu1_valid = true ∧
           i.bmp1_altitude_m ≠ none ∧ i.imu1_altitude_m ≠ none)) :
    agree_block c st i = (c, st) := by
  unfold agree_block
  by_cases hv : (i.bmp1_valid && i.imu1_valid) = true
  · simp only [hv, if_true]
    cases h1 : i.bmp1_altitude_m <;> cases h2 : i.imu1_altitude_m <;> try rfl
    exfalso
    rcases Bool.and_eq_true_iff.mp hv with ⟨hb, hi⟩
    exact h ⟨hb, hi, by simp [h1], by simp [h2]⟩
  · simp only [Bool.not_eq_true] at hv
    simp only [hv]
    rfl

theorem inst_flags_state (c : FcCoreCtx) (i : FcInputs) :
    (inst_flags c i).state = c.state := rfl

theorem inst_flags_tilt_latched (c : FcCoreCtx) (i : FcInputs) :
    (inst_flags c i).tilt_latched = c.tilt_latched := rfl

theorem inst_flags_baro_agree (c : FcCoreCtx) (i : FcInputs) :
    (inst_flags c i).flags.baro_agree = c.flags.baro_agree := rfl

theorem inst_flags_mach_flag (c : FcCoreCtx) (i : FcInputs) :
    (inst_flags c i).flags.mach_ok = c.flags.mach_ok := rfl

theorem inst_flags_mach_acc (c : FcCoreCtx) (i : FcInputs) :
    (inst_flags c i).mach_ok_acc_ms = c.mach_ok_acc_ms := rfl

theorem liftoff_block_state (c : FcCoreCtx) (st : FcStatics) (i : FcInputs) :
    (liftoff_block c st i).1.state = c.state := by
  unfold liftoff_block
  split_ifs
  all_goals try rfl
  all_goals try simp only []
  all_goals try rfl
  all_goals split_ifs
  all_goals rfl

theorem liftoff_block_tilt_latched (c : FcCoreCtx) (st : FcStatics) (i : FcInputs) :
    (liftoff_block c st i).1.tilt_latched = c.tilt_latched := by
  unfold liftoff_block
  split_ifs
  all_goals try rfl
  all_goals try simp only []
  all_goals try rfl
  all_goals split_ifs
  all_goals rfl

theorem liftoff_block_baro_agree (c : FcCoreCtx) (st : FcStatics) (i : FcInputs) :
    (liftoff_block c st i).1.flags.baro_agree = c.flags.baro_agree := by
  unfold liftoff_block
  split_ifs
  all_goals try rfl
  all_goals try simp only []
  all_goals try rfl
  all_goals split_ifs
  all_goals rfl

theorem liftoff_block_agree_acc (c : FcCoreCtx) (st : FcStatics) (i : FcInputs) :
    (liftoff_block c st i).2.agree_acc = st.agree_acc := by
  unfold liftoff_block
  split_ifs
  all_goals try rfl
  all_goals try simp only []
  all_goals try rfl
  all_goals split_ifs
  all_goals rfl

theorem liftoff_block_mach_flag (c : FcCoreCtx) (st : FcStatics) (i : FcInputs) :
    (liftoff_block c st i).1.flags.mach_ok = c.flags.mach_ok := by
  unfold liftoff_block
  split_ifs
  all_goals try rfl
  all_goals try simp only []
  all_goals try rfl
  all_goals split_ifs
  all_goals rfl

theorem liftoff_block_mach_acc (c : FcCoreCtx) (st : FcStatics) (i : FcInputs) :
    (liftoff_block c st i).1.mach_ok_acc_ms = c.mach_ok_acc_ms := by
  unfold liftoff_block
  split_ifs
  all_goals try rfl
  all_goals try simp only []
  all_goals try rfl
  all_goals split_ifs
  all_goals rfl

theorem liftoff_block_mach_state (c : FcCoreCtx) (st : FcStatics) (i : FcInputs) :
    (liftoff_block c st i).2.mach_ok_state = st.mach_ok_state := by
  unfold liftoff_block
  split_ifs
  all_goals try rfl
  all_goals try simp only []
  all_goals try rfl
  all_goals split_ifs
  all_goals rfl

theorem burnout_block_state (c : FcCoreCtx) (st : FcStatics) (i : FcInputs) :
    (burnout_block c st i).1.state = c.state := by
  unfold burnout_block
  split
  all_goals try rfl
  all_goals cases h : i.az_imu1_mps2
  all_goals try simp only [h]
  all_goals try rfl
  all_goals split_ifs
  all_goals try rfl
  all_goals try simp only []
  all_goals try rfl
  all_goals split_ifs
  all_goals rfl

theorem burnout_block_tilt_latched (c : FcCoreCtx) (st : FcStatics) (i : FcInputs) :
    (burnout_block c st i).1.tilt_latched = c.tilt_latched := by
  unfold burnout_block
  split
  all_goals try rfl
  all_goals cases h : i.az_imu1_mps2
  all_goals try simp only [h]
  all_goals try rfl
  all_goals split_ifs
  all_goals try rfl
  all_goals try simp only []
  all_goals try rfl
  all_goals split_ifs
  all_goals rfl

theorem burnout_block_baro_agree (c : FcCoreCtx) (st : FcStatics) (i : FcInputs) :
    (burnout_block c st i).1.flags.baro_agree = c.flags.baro_agree := by
  unfold burnout_block
  split
  all_goals try rfl
  all_goals cases h : i.az_imu1_mps2
  all_goals try simp only [h]
  all_goals try rfl
  all_goals split_ifs
  all_goals try rfl
  all_goals try simp only []
  all_goals try rfl
  all_goals split_ifs
  all_goals rfl

theorem burnout_block_agree_acc (c : FcCoreCtx) (st : FcStatics) (i : FcInputs) :
    (burnout_block c st i).2.agree_acc = st.agree_acc := by
  unfold burnout_block
  split
  all_goals try rfl
  all_goals cases h : i.az_imu1_mps2
  all_goals try simp only [h]
  all_goals try rfl
  all_goals split_ifs
  all_goals try rfl
  all_goals try simp only []
  all_goals try rfl
  all_goals split_ifs
  all_goals rfl

theorem burnout_block_mach_flag (c : FcCoreCtx) (st : FcStatics) (i : FcInputs) :
    (burnout_block c st i).1.flags.mach_ok = c.flags.mach_ok := by
  unfold burnout_block
  split
  all_goals try rfl
  all_goals cases h : i.az_imu1_mps2
  all_goals try simp only [h]
  all_goals try rfl
  all_goals split_ifs
  all_goals try rfl
  all_goals try simp only []
  all_goals try rfl
  all_goals split_ifs
  all_goals rfl

theorem burnout_block_mach_acc (c : FcCoreCtx) (st : FcStatics) (i : FcInputs) :
    (burnout_block c st i).1.mach_ok_acc_ms = c.mach_ok_acc_ms := by
  unfold burnout_block
  split
  all_goals try rfl
  all_goals cases h : i.az_imu1_mps2
  all_goals try simp only [h]
  all_goals try rfl
  all_goals split_ifs
  all_goals try rfl
  all_goals try simp only []
  all_goals try rfl
  all_goals split_ifs
  all_goals rfl

theorem burnout_block_mach_state (c : FcCoreCtx) (st : FcStatics) (i : FcInputs) :
    (burnout_block c st i).2.mach_ok_state = st.mach_ok_state := by
  unfold burnout_block
  split
  all_goals try rfl
  all_goals cases h : i.az_imu1_mps2
  all_goals try simp only [h]
  all_goals try rfl
  all_goals split_ifs
  all_goals try rfl
  all_goals try simp only []
  all_goals try rfl
  all_goals split_ifs
  all_goals rfl

theorem fsm_switch_flags (c : FcCoreCtx) (st : FcStatics) (i : FcInputs) :
    (fsm_switch c st i).flags = c.flags := by
  unfold fsm_switch
  cases hs : c.state
  all_goals cases h1 : i.agl_fused_m
  all_goals cases h2 : i.apogee_agl_m
  all_goals cases h3 : i.t_apogee_s
  all_goals try simp only [h1, h2, h3]
  all_goals try rfl
  all_goals split_ifs
  all_goals try rfl
  all_goals try simp only []
  all_goals try rfl
  all_goals split_ifs
  all_goals rfl

theorem fsm_switch_tilt_latched (c : FcCoreCtx) (st : FcStatics) (i : FcInputs) :
    (fsm_switch c st i).tilt_latched = c.tilt_latched := by
  unfold fsm_switch
  cases hs : c.state
  all_goals cases h1 : i.agl_fused_m
  all_goals cases h2 : i.apogee_agl_m
  all_goals cases h3 : i.t_apogee_s
  all_goals try simp only [h1, h2, h3]
  all_goals try rfl
  all_goals split_ifs
  all_goals try rfl
  all_goals try simp only []
  all_goals try rfl
  all_goals split_ifs
  all_goals rfl

theorem fsm_switch_mach_acc (c : FcCoreCtx) (st : FcStatics) (i : FcInputs) :
    (fsm_switch c st i).mach_ok_acc_ms = c.mach_ok_acc_ms := by
  unfold fsm_switch
  cases hs : c.state
  all_goals cases h1 : i.agl_fused_m
  all_goals cases h2 : i.apogee_agl_m
  all_goals cases h3 : i.t_apogee_s
  all_goals try simp only [h1, h2, h3]
  all_goals try rfl
  all_goals split_ifs
  all_goals try rfl
  all_goals try simp only []
  all_goals try rfl
  all_goals split_ifs
  all_goals rfl

/-! ## Composed preservation lemmas -/

theorem update_flags_state (cth : ℚ) (c : FcCoreCtx) (st : FcStatics) (i : FcInputs) :
    (update_flags cth c st i).1.state = c.state := by
  simp only [update_flags]
  rw [inst_flags_state, agree_block_ctx_state, mach_block_ctx_state,
      tilt_block_state, sensors_block_state]

theorem update_flags_tilt_latched (cth : ℚ) (c : FcCoreCtx) (st : FcStatics) (i : FcInputs) :
    (update_flags cth c st i).1.tilt_latched =
      (tilt_block (sensors_block c i) i).tilt_latched := by
  simp only [update_flags]
  rw [inst_flags_tilt_latched, agree_block_tilt_latched, mach_block_tilt_latched]

theorem update_flags_latch_mono (cth : ℚ) (c : FcCoreCtx) (st : FcStatics) (i : FcInputs)
    (h : c.tilt_latched = true) :
    (update_flags cth c st i).1.tilt_latched = true := by
  rw [update_flags_tilt_latched]
  exact tilt_block_latch_mono _ _ (by rw [sensors_block_tilt_latched]; exact h)

theorem update_flags_baro_skip (cth : ℚ) (c : FcCoreCtx) (st : FcStatics) (i : FcInputs)
    (h : ¬(i.bmp1_valid = true ∧ i.imu1_valid = true ∧
           i.bmp1_altitude_m ≠ none ∧ i.imu1_altitude_m ≠ none)) :
    (update_flags cth c st i).1.flags.baro_agree = c.flags.baro_agree ∧
    (update_flags cth c st i).2.1.agree_acc = st.agree_acc := by
  simp only [update_flags]
  rw [agree_block_skip _ _ _ h]
  constructor
  · rw [inst_flags_baro_agree, mach_block_baro_agree, tilt_block_flags, sensors_block_flags]
  · rw [mach_block_agree_acc]

theorem update_fsm_baro_frame (c : FcCoreCtx) (st : FcStatics) (i : FcInputs) :
    (update_fsm c st i).1.flags.baro_agree = c.flags.baro_agree ∧
    (update_fsm c st i).2.agree_acc = st.agree_acc := by
  simp only [update_fsm]
  constructor
  · rw [fsm_switch_flags, burnout_block_baro_agree, liftoff_block_baro_agree]
  · rw [burnout_block_agree_acc, liftoff_block_agree_acc]

theorem update_fsm_ctx_state (c : FcCoreCtx) (st : FcStatics) (i : FcInputs) :
    (update_fsm c st i).1 =
      fsm_switch (burnout_block (liftoff_block c st i).1 (liftoff_block c st i).2 i).1
                 (burnout_block (liftoff_block c st i).1 (liftoff_block c st i).2 i).2 i := rfl

theorem fc_step_ctx (cth : ℚ) (c : FcCoreCtx) (st : FcStatics) (i : FcInputs) :
    (fc_step cth c st i).1 =
      (update_fsm (update_flags cth c st i).1 (update_flags cth c st i).2.1 i).1 := rfl

theorem fc_step_statics (cth : ℚ) (c : FcCoreCtx) (st : FcStatics) (i : FcInputs) :
    (fc_step cth c st i).2.1 =
      (update_fsm (update_flags cth c st i).1 (update_flags cth c st i).2.1 i).2 := rfl

theorem fc_step_out_state (cth : ℚ) (c : FcCoreCtx) (st : FcStatics) (i : FcInputs) :
    (fc_step cth c st i).2.2.state = (fc_step cth c st i).1.state := rfl

theorem fc_step_out_cmd (cth : ℚ) (c : FcCoreCtx) (st : FcStatics) (i : FcInputs) :
    (fc_step cth c st i).2.2.airbrake_cmd_deg =
      (match (fc_step cth c st i).1.state with
       | FC_DEPLOYED => FC_DEPLOY_CMD_DEG
       | _ => (0 : ℚ)) := rfl

/-! ## Claim theorems -/

/-- C1: on every `fc_step` tick, `airbrake_cmd_deg` equals
    `FC_DEPLOY_CMD_DEG` (30°) iff the post-tick state is `FC_DEPLOYED`,
    is 0 in every other state, and being positive forces `FC_DEPLOYED`. -/
theorem C1_airbrake_cmd_iff_deployed (cth : ℚ) (c : FcCoreCtx) (st : FcStatics) (i : FcInputs) :
    ((fc_step cth c st i).2.2.airbrake_cmd_deg = FC_DEPLOY_CMD_DEG ↔
      (fc_step cth c st i).2.2.state = FC_DEPLOYED) ∧
    ((fc_step cth c st i).2.2.state ≠ FC_DEPLOYED →
      (fc_step cth c st i).2.2.airbrake_cmd_deg = 0) ∧
    (0 < (fc_step cth c st i).2.2.airbrake_cmd_deg →
      (fc_step cth c st i).2.2.state = FC_DEPLOYED) := by
  rw [fc_step_out_state, fc_step_out_cmd]
  cases h : (fc_step cth c st i).1.state
  all_goals norm_num [FC_DEPLOY_CMD_DEG]
  all_goals decide

/-- Witness for C1 at a concrete quiescent input: the command is 0. -/
theorem C1_airbrake_witness :
    (fc_step (866/1000) fc_init FcStatics.init
      ⟨20, 100, none, none, none, none, none, none, none, false,
       none, none, false, false, false⟩).2.2.airbrake_cmd_deg = 0 := by
  have h := C1_airbrake_cmd_iff_deployed (866/1000) fc_init FcStatics.init
    ⟨20, 100, none, none, none, none, none, none, none, false,
     none, none, false, false, false⟩
  exact h.2.1 (by decide)

/-- C9: when `bmp1_valid` or `imu1_valid` is false, or either raw altitude
    is NaN, `fc_step` leaves the `FCF_BARO_AGREE` bit and the agreement
    accumulator exactly as they were. -/
theorem C9_baro_agree_frame (cth : ℚ) (c : FcCoreCtx) (st : FcStatics) (i : FcInputs)
    (h : ¬(i.bmp1_valid = true ∧ i.imu1_valid = true ∧
           i.bmp1_altitude_m ≠ none ∧ i.imu1_altitude_m ≠ none)) :
    (fc_step cth c st i).1.flags.baro_agree = c.flags.baro_agree ∧
    (fc_step cth c st i).2.1.agree_acc = st.agree_acc := by
  rw [fc_step_ctx, fc_step_statics]
  have h1 := update_flags_baro_skip cth c st i h
  have h2 := update_fsm_baro_frame (update_flags cth c st i).1 (update_flags cth c st i).2.1 i
  exact ⟨h2.1.trans h1.1, h2.2.trans h1.2⟩

/-- Witness for C9: an invalid-barometer tick from the initial context
    preserves the (cleared) agreement bit and accumulator. -/
theorem C9_baro_agree_witness :
    (fc_step (866/1000) fc_init FcStatics.init
      ⟨20, 100, some 1, some 2, some 3, some 3, some 0, some 9, some 100, true,
       none, some 5, true, false, true⟩).1.flags.baro_agree = fc_init.flags.baro_agree ∧
    (fc_step (866/1000) fc_init FcStatics.init
      ⟨20, 100, some 1, some 2, some 3, some 3, some 0, some 9, some 100, true,
       none, some 5, true, false, true⟩).2.1.agree_acc = FcStatics.init.agree_acc :=
  C9_baro_agree_frame (866/1000) fc_init FcStatics.init
    ⟨20, 100, some 1, some 2, some 3, some 3, some 0, some 9, some 100, true,
     none, some 5, true, false, true⟩ (by decide)

/-- A run over records whose timestamps are all zero keeps the servo task
    in its start state (closed, minimum pulse, stamp 0). -/
theorem servoRun_zero_stamps (recs : List ServoTelemetry)
    (h : ∀ r ∈ recs, r.timestamp_ms = 0) :
    servoRun recs = ServoState.init := by
  induction recs with
  | nil => rfl
  | cons r t ih =>
    have hr : r.timestamp_ms = 0 := h r (List.mem_cons_self r t)
    have hstep : task_servo_ctrl_step ServoState.init r = ServoState.init := by
      unfold task_servo_ctrl_step
      rw [hr]
      simp [servoClose, servoWriteUS, ServoState.init, SERVO_MIN_US, SERVO_MAX_US]
    show List.foldl task_servo_ctrl_step (task_servo_ctrl_step ServoState.init r) t =
      ServoState.init
    rw [hstep]
    exact ih (fun x hx => h x (List.mem_cons_of_mem r hx))

/-- C10: a servo tick whose record timestamp is zero or unchanged commands
    the closed position (minimum pulse width) without evaluating the deploy
    logic (the result is the fixed closed state, independent of every other
    record field), and over any prefix during which no telemetry record has
    been published (all timestamps zero) the airbrake is never opened. -/
theorem C10_servo_watchdog (s : ServoState) (rec : ServoTelemetry)
    (recs : List ServoTelemetry) :
    (rec.timestamp_ms = 0 ∨ rec.timestamp_ms = s.last_stamp →
      task_servo_ctrl_step s rec =
        { last_stamp := s.last_stamp, s_open := false, s_cmd_us := SERVO_MIN_US }) ∧
    ((∀ r ∈ recs, r.timestamp_ms = 0) →
      (servoRun recs).s_open = false ∧ (servoRun recs).s_cmd_us = SERVO_MIN_US) := by
  constructor
  · intro h
    unfold task_servo_ctrl_step
    rcases h with h0 | h0
    · rw [h0]
      simp [servoClose, servoWriteUS, SERVO_MIN_US, SERVO_MAX_US]
    · rw [h0]
      simp [servoClose, servoWriteUS, SERVO_MIN_US, SERVO_MAX_US]
  · intro h
    rw [servoRun_zero_stamps recs h]
    exact ⟨rfl, rfl⟩

/-- Witness for C10: from the start state, a zero-stamp record leaves the
    servo closed at minimum pulse width. -/
theorem C10_servo_watchdog_witness :
    task_servo_ctrl_step ServoState.init
        ⟨0, true, true, true, false, FC_WINDOW, some 9, true, some 0⟩ =
      { last_stamp := 0, s_open := false, s_cmd_us := SERVO_MIN_US } ∧
    (servoRun [⟨0, true, true, true, false, FC_WINDOW, some 9, true, some 0⟩]).s_open = false := by
  have h := C10_servo_watchdog ServoState.init
    ⟨0, true, true, true, false, FC_WINDOW, some 9, true, some 0⟩
    [⟨0, true, true, true, false, FC_WINDOW, some 9, true, some 0⟩]
  exact ⟨h.1 (Or.inl rfl), (h.2 (by decide)).1⟩

/-- With the tilt latch set, every state that checks the latch
    (fc_core.cpp:172,176,180,185,197) jumps to `FC_ABORT_LOCKOUT`. -/
theorem fsm_switch_latched_abort (c : FcCoreCtx) (st : FcStatics) (i : FcInputs)
    (hl : c.tilt_latched = true)
    (hs : c.state = FC_PREFLIGHT ∨ c.state = FC_BOOST ∨ c.state = FC_POST_BURN_HOLD ∨
          c.state = FC_WINDOW ∨ c.state = FC_DEPLOYED) :
    (fsm_switch c st i).state = FC_ABORT_LOCKOUT := by
  unfold fsm_switch
  rcases hs with h | h | h | h | h
  all_goals rw [h]
  all_goals simp [hl]

theorem fsm_switch_abort_absorb (c : FcCoreCtx) (st : FcStatics) (i : FcInputs)
    (h : c.state = FC_ABORT_LOCKOUT) :
    (fsm_switch c st i).state = FC_ABORT_LOCKOUT := by
  simp [fsm_switch, h]

/-- `FC_RETRACTING` proceeds unconditionally to `FC_LOCKED`
    (fc_core.cpp:205-206): no tilt-latch check on this arm. -/
theorem fsm_switch_retracting_locks (c : FcCoreCtx) (st : FcStatics) (i : FcInputs)
    (h : c.state = FC_RETRACTING) :
    (fsm_switch c st i).state = FC_LOCKED := by
  simp [fsm_switch, h]

theorem fsm_switch_locked_absorb (c : FcCoreCtx) (st : FcStatics) (i : FcInputs)
    (h : c.state = FC_LOCKED) :
    (fsm_switch c st i).state = FC_LOCKED := by
  simp [fsm_switch, h]

/-- C2 (amended): the tilt latch is monotone across a tick; a set latch
    drives `PREFLIGHT`/`BOOST`/`POST_BURN_HOLD`/`WINDOW`/`DEPLOYED` to
    `FC_ABORT_LOCKOUT` on the very tick, and `FC_ABORT_LOCKOUT` is
    absorbing; but `FC_RETRACTING` proceeds to `FC_LOCKED` regardless of
    the latch, and `FC_LOCKED` is absorbing. -/
theorem C2_tilt_latch_behavior (cth : ℚ) (c : FcCoreCtx) (st : FcStatics) (i : FcInputs) :
    (c.tilt_latched = true → (fc_step cth c st i).1.tilt_latched = true) ∧
    ((fc_step cth c st i).1.tilt_latched = true →
      (c.state = FC_PREFLIGHT ∨ c.state = FC_BOOST ∨ c.state = FC_POST_BURN_HOLD ∨
       c.state = FC_WINDOW ∨ c.state = FC_DEPLOYED) →
      (fc_step cth c st i).1.state = FC_ABORT_LOCKOUT) ∧
    (c.state = FC_ABORT_LOCKOUT → (fc_step cth c st i).1.state = FC_ABORT_LOCKOUT) ∧
    (c.state = FC_RETRACTING → (fc_step cth c st i).1.state = FC_LOCKED) ∧
    (c.state = FC_LOCKED → (fc_step cth c st i).1.state = FC_LOCKED) := by
  set f := update_flags cth c st i with hf
  set l := liftoff_block f.1 f.2.1 i with hlb
  set B := burnout_block l.1 l.2 i with hbb
  have hctx : (fc_step cth c st i).1 = fsm_switch B.1 B.2 i := rfl
  have hBstate : B.1.state = c.state := by
    rw [hbb, burnout_block_state, hlb, liftoff_block_state, hf, update_flags_state]
  have hBlatch : B.1.tilt_latched = f.1.tilt_latched := by
    rw [hbb, burnout_block_tilt_latched, hlb, liftoff_block_tilt_latched]
  have hlatch_out : (fc_step cth c st i).1.tilt_latched = B.1.tilt_latched := by
    rw [hctx, fsm_switch_tilt_latched]
  refine ⟨?_, ?_, ?_, ?_, ?_⟩
  · intro h
    rw [hlatch_out, hBlatch, hf]
    exact update_flags_latch_mono cth c st i h
  · intro hl1 hs
    rw [hlatch_out] at hl1
    rw [hctx]
    refine fsm_switch_latched_abort B.1 B.2 i hl1 ?_
    rw [hBstate]
    exact hs
  · intro h
    rw [hctx]
    exact fsm_switch_abort_absorb B.1 B.2 i (by rw [hBstate]; exact h)
  · intro h
    rw [hctx]
    exact fsm_switch_retracting_locks B.1 B.2 i (by rw [hBstate]; exact h)
  · intro h
    rw [hctx]
    exact fsm_switch_locked_absorb B.1 B.2 i (by rw [hBstate]; exact h)

/-- Witness for C2: a latched context in `FC_DEPLOYED` aborts on the tick,
    and a latched context in `FC_RETRACTING` locks instead. -/
theorem C2_tilt_latch_witness :
    (fc_step (866/1000) { fc_init with state := FC_DEPLOYED, tilt_latched := true }
      FcStatics.init
      ⟨20, 100, none, none, none, none, none, none, none, false,
       none, none, false, false, false⟩).1.state = FC_ABORT_LOCKOUT ∧
    (fc_step (866/1000) { fc_init with state := FC_RETRACTING, tilt_latched := true }
      FcStatics.init
      ⟨20, 100, none, none, none, none, none, none, none, false,
       none, none, false, false, false⟩).1.state = FC_LOCKED := by
  constructor
  · have h := C2_tilt_latch_behavior (866/1000)
      { fc_init with state := FC_DEPLOYED, tilt_latched := true } FcStatics.init
      ⟨20, 100, none, none, none, none, none, none, none, false,
       none, none, false, false, false⟩
    exact h.2.1 (h.1 rfl) (Or.inr (Or.inr (Or.inr (Or.inr rfl))))
  · have h := C2_tilt_latch_behavior (866/1000)
      { fc_init with state := FC_RETRACTING, tilt_latched := true } FcStatics.init
      ⟨20, 100, none, none, none, none, none, none, none, false,
       none, none, false, false, false⟩
    exact h.2.2.2.1 rfl

set_option maxRecDepth 100000 in
/-- Counterexample to C2 as stated: on a run reaching `FC_RETRACTING`
    (prefix of 20 ticks ending `PREFLIGHT → BOOST → POST_BURN_HOLD →
    WINDOW → DEPLOYED → RETRACTING`), the tilt latch completes its 200 ms
    dwell on tick 21, yet the state goes to `FC_LOCKED` — not
    `FC_ABORT_LOCKOUT` — and stays `FC_LOCKED` on ticks 22 and 23 (two
    ticks after the latch was set).  So a set tilt latch does NOT
    transition `FC_RETRACTING` to `FC_ABORT_LOCKOUT`, and the state is
    not `FC_ABORT_LOCKOUT` within two ticks of the latch. -/
theorem C2_tilt_latch_counterexample :
    (fcRun COS30 (fc_init, FcStatics.init) (c2trace.take 20)).1.state = FC_RETRACTING ∧
    (fcRun COS30 (fc_init, FcStatics.init) (c2trace.take 20)).1.tilt_latched = false ∧
    (fcRun COS30 (fc_init, FcStatics.init) (c2trace.take 21)).1.tilt_latched = true ∧
    (fcRun COS30 (fc_init, FcStatics.init) (c2trace.take 21)).1.state = FC_LOCKED ∧
    (fcRun COS30 (fc_init, FcStatics.init) (c2trace.take 22)).1.state = FC_LOCKED ∧
    (fcRun COS30 (fc_init, FcStatics.init) c2trace).1.state = FC_LOCKED ∧
    FC_LOCKED ≠ FC_ABORT_LOCKOUT := by decide

set_option maxRecDepth 100000 in
/-- C5 (code bug): after five flight ticks the liftoff, burnout, Mach-OK
    and baro-agreement one-shots have all fired and the FSM is in
    `FC_POST_BURN_HOLD`; `fcSoftReset` then memsets the context (state
    becomes `FC_SAFE` = 0) — but the `s_core_inited` check sits before the
    `fc_task` loop, so `fc_init` never runs again: the next ticks leave the
    state at `FC_SAFE` (never `FC_PREFLIGHT`), even with liftoff conditions
    present, and the function-local statics (liftoff latch, burnout latch,
    Mach-OK gate state, agreement accumulator) keep their pre-reset values,
    so liftoff is NOT re-detected from scratch. -/
theorem C5_soft_reset_code_bug :
    (fcTaskRun COS30 (c5events.take 5)).1.state = FC_POST_BURN_HOLD ∧
    (fcTaskRun COS30 (c5events.take 5)).2 =
      { mach_ok_state := true, agree_acc := 500,
        liftoff_latched := true, burnout_latched := true } ∧
    (fcTaskRun COS30 (c5events.take 6)).1 = fcCtxZero ∧
    (fcTaskRun COS30 (c5events.take 7)).1.state = FC_SAFE ∧
    (fcTaskRun COS30 c5events).1.state = FC_SAFE ∧
    (fcTaskRun COS30 c5events).1.state ≠ FC_PREFLIGHT ∧
    (fcTaskRun COS30 c5events).2.liftoff_latched = true ∧
    (fcTaskRun COS30 c5events).2.burnout_latched = true ∧
    (fcTaskRun COS30 c5events).2.mach_ok_state = true := by decide

/-! ## Mach-gate characterisation (for C6) -/

theorem mach_block_acc_eq (cth : ℚ) (c : FcCoreCtx) (st : FcStatics) (i : FcInputs) :
    (mach_block cth c st i).1.mach_ok_acc_ms =
      (match machOf cth i with
       | none => c.mach_ok_acc_ms
       | some m =>
         if m < FC_MACH_MAX_FOR_DEPLOY then c.mach_ok_acc_ms + i.dt_ms
         else if FC_MACH_MAX_FOR_DEPLOY + FC_MACH_HYST < m then 0
         else c.mach_ok_acc_ms) := by
  unfold mach_block
  cases h : machOf cth i
  all_goals simp only [h]
  all_goals try rfl
  all_goals split_ifs
  all_goals rfl

theorem mach_block_state_eq (cth : ℚ) (c : FcCoreCtx) (st : FcStatics) (i : FcInputs) :
    (mach_block cth c st i).2.1.mach_ok_state =
      (match machOf cth i with
       | none => st.mach_ok_state
       | some m =>
         if m < FC_MACH_MAX_FOR_DEPLOY then
           (if !st.mach_ok_state && decide (FC_MACH_DWELL_MS ≤ c.mach_ok_acc_ms + i.dt_ms)
            then true else st.mach_ok_state)
         else if FC_MACH_MAX_FOR_DEPLOY + FC_MACH_HYST < m then false
         else st.mach_ok_state) := by
  unfold mach_block
  cases h : machOf cth i
  all_goals simp only [h]
  all_goals try rfl
  all_goals split_ifs
  all_goals rfl

theorem mach_block_flag_eq (cth : ℚ) (c : FcCoreCtx) (st : FcStatics) (i : FcInputs) :
    (mach_block cth c st i).1.flags.mach_ok =
      (match machOf cth i with
       | none => c.flags.mach_ok
       | some _ => (mach_block cth c st i).2.1.mach_ok_state) := by
  unfold mach_block
  cases h : machOf cth i
  all_goals simp only [h]
  all_goals try rfl
  all_goals split_ifs
  all_goals rfl

theorem update_fsm_statics (c : FcCoreCtx) (st : FcStatics) (i : FcInputs) :
    (update_fsm c st i).2 =
      (burnout_block (liftoff_block c st i).1 (liftoff_block c st i).2 i).2 := rfl

theorem fc_step_mach_acc_eq (cth : ℚ) (c : FcCoreCtx) (st : FcStatics) (i : FcInputs) :
    (fc_step cth c st i).1.mach_ok_acc_ms =
      (mach_block cth (tilt_block (sensors_block c i) i) st i).1.mach_ok_acc_ms := by
  rw [fc_step_ctx, update_fsm_ctx_state, fsm_switch_mach_acc, burnout_block_mach_acc,
      liftoff_block_mach_acc]
  simp only [update_flags]
  rw [inst_flags_mach_acc, agree_block_mach_acc]

theorem fc_step_mach_state_eq (cth : ℚ) (c : FcCoreCtx) (st : FcStatics) (i : FcInputs) :
    (fc_step cth c st i).2.1.mach_ok_state =
      (mach_block cth (tilt_block (sensors_block c i) i) st i).2.1.mach_ok_state := by
  rw [fc_step_statics, update_fsm_statics, burnout_block_mach_state, liftoff_block_mach_state]
  simp only [update_flags]
  rw [agree_block_mach_state]

theorem fc_step_mach_flag_eq (cth : ℚ) (c : FcCoreCtx) (st : FcStatics) (i : FcInputs) :
    (fc_step cth c st i).1.flags.mach_ok =
      (mach_block cth (tilt_block (sensors_block c i) i) st i).1.flags.mach_ok := by
  rw [fc_step_ctx, update_fsm_ctx_state, fsm_switch_flags, burnout_block_mach_flag,
      liftoff_block_mach_flag]
  simp only [update_flags]
  rw [inst_flags_mach_flag, agree_block_mach_flag]

theorem fcRun_append (cth : ℚ) (s : FcCoreCtx × FcStatics) (l : List FcInputs) (i : FcInputs) :
    fcRun cth s (l ++ [i]) = fcStepS cth (fcRun cth s l) i := by
  simp [fcRun, List.foldl_append]

theorem machCredit_append (cth : ℚ) (l : List FcInputs) (i : FcInputs) :
    machCredit cth (l ++ [i]) =
      (match machOf cth i with
       | none => machCredit cth l
       | some m =>
         if m < FC_MACH_MAX_FOR_DEPLOY then machCredit cth l + i.dt_ms
         else if FC_MACH_MAX_FOR_DEPLOY + FC_MACH_HYST < m then 0
         else machCredit cth l) := by
  simp only [machCredit, List.foldl_append, List.foldl_cons, List.foldl_nil]

/-- Along any power-on run, `mach_ok_acc_ms` equals the trace-level
    `machCredit`, and the published `FCF_MACH_OK` bit always equals the
    static `mach_ok_state`. -/
theorem fcRun_mach_invariant (cth : ℚ) (l : List FcInputs) :
    (fcRun cth (fc_init, FcStatics.init) l).1.mach_ok_acc_ms = machCredit cth l ∧
    (fcRun cth (fc_init, FcStatics.init) l).1.flags.mach_ok =
      (fcRun cth (fc_init, FcStatics.init) l).2.mach_ok_state := by
  induction l using List.reverseRecOn with
  | nil => exact ⟨rfl, rfl⟩
  | append_singleton l i ih =>
    obtain ⟨ih1, ih2⟩ := ih
    rw [fcRun_append, machCredit_append]
    have hstep1 : (fcStepS cth (fcRun cth (fc_init, FcStatics.init) l) i).1 =
        (fc_step cth (fcRun cth (fc_init, FcStatics.init) l).1
          (fcRun cth (fc_init, FcStatics.init) l).2 i).1 := rfl
    have hstep2 : (fcStepS cth (fcRun cth (fc_init, FcStatics.init) l) i).2 =
        (fc_step cth (fcRun cth (fc_init, FcStatics.init) l).1
          (fcRun cth (fc_init, FcStatics.init) l).2 i).2.1 := rfl
    rw [hstep1, hstep2, fc_step_mach_acc_eq, fc_step_mach_state_eq, fc_step_mach_flag_eq,
        mach_block_acc_eq, mach_block_state_eq, mach_block_flag_eq,
        tilt_block_mach_acc, sensors_block_mach_acc, tilt_block_flags, sensors_block_flags,
        ih1, ih2]
    cases h : machOf cth i
    · simp only [h]
      constructor <;> first | trivial | rfl
    · simp only [h]
      refine ⟨?_, ?_⟩
      · first | trivial | rfl
      · rw [mach_block_state_eq]
        simp only [h, tilt_block_mach_acc, sensors_block_mach_acc, ih1]

/-- C6 (amended): the `FCF_MACH_OK` gate turns OFF (state and flag)
    immediately on any sample whose Mach exceeds
    `FC_MACH_MAX_FOR_DEPLOY + FC_MACH_HYST`, from any state; and along any
    power-on run it turns ON only on a sample below
    `FC_MACH_MAX_FOR_DEPLOY` with at least `FC_MACH_DWELL_MS` of
    accumulated below-threshold time since the last above-hysteresis
    sample (`machCredit`); samples in the dead zone [0.50, 0.52] and NaN
    speed samples neither accumulate nor reset that time. -/
theorem C6_mach_gate_amended (cth : ℚ) (c : FcCoreCtx) (st : FcStatics)
    (l : List FcInputs) (i j : FcInputs) (m : ℚ) :
    (machOf cth j = some m → FC_MACH_MAX_FOR_DEPLOY + FC_MACH_HYST < m →
      (fc_step cth c st j).2.1.mach_ok_state = false ∧
      (fc_step cth c st j).1.flags.mach_ok = false) ∧
    ((fcRun cth (fc_init, FcStatics.init) l).2.mach_ok_state = false →
      (fcStepS cth (fcRun cth (fc_init, FcStatics.init) l) i).2.mach_ok_state = true →
      (∃ m2, machOf cth i = some m2 ∧ m2 < FC_MACH_MAX_FOR_DEPLOY) ∧
      FC_MACH_DWELL_MS ≤ machCredit cth (l ++ [i])) := by
  constructor
  · intro hm hgt
    have hnot : ¬(m < FC_MACH_MAX_FOR_DEPLOY) := by
      have hlt : FC_MACH_MAX_FOR_DEPLOY < m :=
        lt_trans (by norm_num [FC_MACH_MAX_FOR_DEPLOY, FC_MACH_HYST]) hgt
      exact not_lt.mpr hlt.le
    constructor
    · rw [fc_step_mach_state_eq, mach_block_state_eq]
      simp only [hm]
      rw [if_neg hnot, if_pos hgt]
    · rw [fc_step_mach_flag_eq, mach_block_flag_eq]
      simp only [hm]
      rw [mach_block_state_eq]
      simp only [hm]
      rw [if_neg hnot, if_pos hgt]
  · intro h0 h1
    have hinv := fcRun_mach_invariant cth l
    have hstep : (fcStepS cth (fcRun cth (fc_init, FcStatics.init) l) i).2 =
        (fc_step cth (fcRun cth (fc_init, FcStatics.init) l).1
          (fcRun cth (fc_init, FcStatics.init) l).2 i).2.1 := rfl
    rw [hstep, fc_step_mach_state_eq, mach_block_state_eq,
        tilt_block_mach_acc, sensors_block_mach_acc, hinv.1, h0] at h1
    rw [machCredit_append]
    cases hm : machOf cth i
    · rw [hm] at h1
      exact absurd h1 (by simp)
    · rename_i m2
      rw [hm] at h1
      simp only [] at h1
      by_cases hlt : m2 < FC_MACH_MAX_FOR_DEPLOY
      · rw [if_pos hlt] at h1
        simp only [Bool.not_false, Bool.true_and] at h1
        by_cases hd : FC_MACH_DWELL_MS ≤ machCredit cth l + i.dt_ms
        · refine ⟨⟨m2, rfl, hlt⟩, ?_⟩
          simp only []
          rw [if_pos hlt]
          exact hd
        · rw [if_neg (by simpa using hd)] at h1
          exact absurd h1 (by simp)
      · rw [if_neg hlt] at h1
        by_cases hgt : FC_MACH_MAX_FOR_DEPLOY + FC_MACH_HYST < m2
        · rw [if_pos hgt] at h1
          exact absurd h1 (by simp)
        · rw [if_neg hgt] at h1
          exact absurd h1 (by simp)

/-- Witness for C6: a Mach-0.60 sample turns the gate OFF from ON at once,
    and the ON transition at the end of `c6trace` carries 300 ms of
    accumulated sub-0.50 time. -/
theorem C6_mach_gate_witness :
    (fc_step COS30 fc_init
      { mach_ok_state := true, agree_acc := 0,
        liftoff_latched := false, burnout_latched := false }
      (c6in (3897/25))).2.1.mach_ok_state = false ∧
    (∃ m2, machOf COS30 (c6in (2598/25)) = some m2 ∧ m2 < FC_MACH_MAX_FOR_DEPLOY) ∧
    FC_MACH_DWELL_MS ≤ machCredit COS30 (c6trace.take 3 ++ [c6in (2598/25)]) := by
  have h := C6_mach_gate_amended COS30 fc_init
    ⟨true, 0, false, false⟩ (c6trace.take 3) (c6in (2598/25)) (c6in (3897/25)) (3/5)
  have hoff := h.1 (by decide) (by decide)
  have hon := h.2 (by decide) (by decide)
  exact ⟨hoff.1, hon.1, hon.2⟩

set_option maxRecDepth 100000 in
/-- Counterexample to C6 as stated: on `c6trace` (Mach 0.40 for 200 ms,
    then 100 ms at Mach 0.51, then Mach 0.40 again, 100 ms per tick) the
    `FCF_MACH_OK` flag transitions OFF→ON at the fourth tick, yet the
    300 ms (= `FC_MACH_DWELL_MS`) immediately preceding that transition
    contain the Mach-0.51 sample, i.e. `mach < 0.50` was NOT sustained for
    300 ms: the dead-zone sample pauses but does not reset the dwell
    accumulator. -/
theorem C6_mach_gate_counterexample :
    (fcRun COS30 (fc_init, FcStatics.init) (c6trace.take 3)).1.flags.mach_ok = false ∧
    (fcRun COS30 (fc_init, FcStatics.init) c6trace).1.flags.mach_ok = true ∧
    machOf COS30 (c6in (66249/500)) = some (51/100) ∧
    ¬((51:ℚ)/100 < FC_MACH_MAX_FOR_DEPLOY) ∧
    (c6in (66249/500)).dt_ms + (c6in (2598/25)).dt_ms + (c6in (2598/25)).dt_ms =
      FC_MACH_DWELL_MS := by decide

/-! ## Conservative-Mach / sos_min characterisation (for C3) -/

theorem fmaxfQ_ge (a : ℚ) (b : Option ℚ) : a ≤ fmaxfQ a b := by
  cases b
  · exact le_refl a
  · exact le_max_left _ _

/-- `vz_acc` is a float the firmware never sets to NaN, so the
    complementary fusion always produces a finite value. -/
theorem vz_fuse_ne_none (vz : Option ℚ) (acc : ℚ) : vz_fuse vz acc ≠ none := by
  cases vz <;> simp [vz_fuse]

theorem mach_block_out (cth : ℚ) (c : FcCoreCtx) (st : FcStatics) (i : FcInputs) :
    (mach_block cth c st i).2.2 = machOf cth i := by
  unfold mach_block
  cases h : machOf cth i
  all_goals simp only [h]
  all_goals try rfl
  all_goals split_ifs
  all_goals rfl

/-- The FcStatus `mach_cons` output of a tick is exactly the tick's Mach
    sample (vz_fused with fallback to vz_mps, fixed SoS). -/
theorem fc_step_out_mach (cth : ℚ) (c : FcCoreCtx) (st : FcStatics) (i : FcInputs) :
    (fc_step cth c st i).2.2.mach_cons = machOf cth i := by
  show (update_flags cth c st i).2.2 = _
  simp only [update_flags]
  rw [mach_block_out]

theorem machOf_none_iff (cth : ℚ) (i : FcInputs) :
    machOf cth i = none ↔ (i.vz_fused_mps = none ∧ i.vz_mps = none) := by
  unfold machOf
  cases h1 : i.vz_fused_mps <;> cases h2 : i.vz_mps <;> simp [h1, h2]

/-- C3 (amended): the fusion-side invariant holds — `sos_min` starts at
    `SOS_MIN_FLOOR_MPS`, stays ≥ it across every tick, and a finite
    FusedAlt `mach_cons` forces a finite `vz_fused` and
    `sos_min ≥ SOS_MIN_FLOOR_MPS`; but the FcStatus `mach_cons` is NaN iff
    BOTH `vz_fused` and `vz_mps` are NaN (fc_core falls back to `vz_mps`),
    and it is computed from the fixed `FC_SOS_FIXED_MPS` = 300 =
    `SOS_MIN_FLOOR_MPS`, not from the fusion `sos_min`. -/
theorem C3_mach_cons_amended (sq : ℚ → Option ℚ) (cosD cth : ℚ)
    (s : FusionState) (i : FusionIn) (c : FcCoreCtx) (st : FcStatics) (j : FcInputs) :
    SOS_MIN_FLOOR_MPS ≤ FusionState.init.sos_min_mps ∧
    (SOS_MIN_FLOOR_MPS ≤ s.sos_min_mps →
      SOS_MIN_FLOOR_MPS ≤ (fusion_step sq cosD s i).1.sos_min_mps ∧
      ((fusion_step sq cosD s i).2.mach_cons ≠ none →
        (fusion_step sq cosD s i).2.vz_fused_mps ≠ none ∧
        SOS_MIN_FLOOR_MPS ≤ (fusion_step sq cosD s i).2.sos_min_mps)) ∧
    ((fc_step cth c st j).2.2.mach_cons = none ↔
      (j.vz_fused_mps = none ∧ j.vz_mps = none)) := by
  refine ⟨le_refl _, ?_, ?_⟩
  · intro h
    simp only [fusion_step]
    constructor
    · split_ifs
      all_goals first | exact fmaxfQ_ge _ _ | exact h
    · intro _
      constructor
      · exact vz_fuse_ne_none _ _
      · split_ifs
        all_goals first | exact fmaxfQ_ge _ _ | exact h
  · rw [fc_step_out_mach, machOf_none_iff]

/-- Witness for C3 (amended) at a concrete state and inputs. -/
theorem C3_mach_cons_witness :
    SOS_MIN_FLOOR_MPS ≤ (fusion_step sqrtTest COS20 FusionState.init (fuInBmp 0 100)).1.sos_min_mps ∧
    ((fc_step COS30 fc_init FcStatics.init (fcInQuiet 100)).2.2.mach_cons = none ↔
      ((fcInQuiet 100).vz_fused_mps = none ∧ (fcInQuiet 100).vz_mps = none)) := by
  have h := C3_mach_cons_amended sqrtTest COS20 COS30 FusionState.init (fuInBmp 0 100)
    fc_init FcStatics.init (fcInQuiet 100)
  exact ⟨(h.2.1 (le_refl _)).1, h.2.2⟩

/-- Counterexample to C3 as stated: with `vz_fused` NaN but `vz_mps` =
    100 m/s, the published FcStatus `mach_cons` is finite
    (100 / 0.866 / 300 = 500/1299), although `vz_fused` is not finite. -/
theorem C3_mach_cons_counterexample :
    (fc_step COS30 fc_init FcStatics.init
      ⟨20, 100, none, none, none, some 100, none, none, none, false,
       none, none, false, false, false⟩).2.2.mach_cons = some (500/1299) := by decide

/-! ## Apogee-predictor characterisation (for C4) -/

/-- The published predictor pair is determined by the tick's `agl_fused`,
    baro-EMA `vz` and readiness exactly as in fusion.cpp:249-263. -/
theorem fusion_step_pred (sq : ℚ → Option ℚ) (cosD : ℚ) (s : FusionState) (i : FusionIn) :
    ((fusion_step sq cosD s i).2.t_apogee_s, (fusion_step sq cosD s i).2.apogee_agl_m) =
      (match (fusion_step sq cosD s i).2.agl_fused_m, (fusion_step sq cosD s i).2.vz_mps,
             (fusion_step sq cosD s i).2.agl_ready with
       | some agl, some vv, true =>
         if 0 < vv then
           (some (FUSION_SAFE_TAPX_FACTOR * (vv / G0)),
            some (agl + FUSION_SAFE_ZAPX_FACTOR * (vv * vv) / (2 * G0)))
         else (some 0, some agl)
       | _, _, _ => (none, none)) := rfl

/-- C4 (amended): on any tick with readiness, finite fused AGL and a
    finite baro-EMA vertical speed `vz` (published as `vz_mps`), the
    predictor publishes `t_apogee = FUSION_SAFE_TAPX_FACTOR·vz/g` and
    `apogee_agl = agl + FUSION_SAFE_ZAPX_FACTOR·vz²/(2g)` when `vz > 0`,
    and `(0, agl)` when `vz ≤ 0` — it is driven by `vz_mps`, not by
    `vz_fused_mps`. -/
theorem C4_apogee_predictor_amended (sq : ℚ → Option ℚ) (cosD : ℚ)
    (s : FusionState) (i : FusionIn) (a v : ℚ)
    (hr : (fusion_step sq cosD s i).2.agl_ready = true)
    (ha : (fusion_step sq cosD s i).2.agl_fused_m = some a)
    (hv : (fusion_step sq cosD s i).2.vz_mps = some v) :
    (0 < v →
      (fusion_step sq cosD s i).2.t_apogee_s = some (FUSION_SAFE_TAPX_FACTOR * (v / G0)) ∧
      (fusion_step sq cosD s i).2.apogee_agl_m =
        some (a + FUSION_SAFE_ZAPX_FACTOR * (v * v) / (2 * G0))) ∧
    (v ≤ 0 →
      (fusion_step sq cosD s i).2.t_apogee_s = some 0 ∧
      (fusion_step sq cosD s i).2.apogee_agl_m = some a) := by
  have hp := fusion_step_pred sq cosD s i
  rw [hr, ha, hv] at hp
  simp only [] at hp
  constructor
  · intro hpos
    rw [if_pos hpos] at hp
    exact ⟨congrArg Prod.fst hp, congrArg Prod.snd hp⟩
  · intro hneg
    rw [if_neg (not_lt.mpr hneg)] at hp
    exact ⟨congrArg Prod.fst hp, congrArg Prod.snd hp⟩

set_option maxRecDepth 100000 in
/-- Counterexample to C4 as stated: after the `c4trace2` prefix, the tick
    `c4in3` has `vz_fused = 2 > 0` but publishes
    `t_apogee = 0.7·(10/g)` — computed from the baro-EMA `vz = 10`,
    not `0.7·(2/g)` from `vz_fused` as the claim states (and likewise for
    `apogee_agl`). -/
theorem C4_apogee_predictor_counterexample :
    (fusion_step sqrtTest COS20 (fusionRun sqrtTest COS20 FusionState.init c4trace2)
      c4in3).2.agl_ready = true ∧
    (fusion_step sqrtTest COS20 (fusionRun sqrtTest COS20 FusionState.init c4trace2)
      c4in3).2.agl_fused_m = some (1/5) ∧
    (fusion_step sqrtTest COS20 (fusionRun sqrtTest COS20 FusionState.init c4trace2)
      c4in3).2.vz_mps = some 10 ∧
    (fusion_step sqrtTest COS20 (fusionRun sqrtTest COS20 FusionState.init c4trace2)
      c4in3).2.vz_fused_mps = some 2 ∧
    (fusion_step sqrtTest COS20 (fusionRun sqrtTest COS20 FusionState.init c4trace2)
      c4in3).2.t_apogee_s = some (FUSION_SAFE_TAPX_FACTOR * (10 / G0)) ∧
    FUSION_SAFE_TAPX_FACTOR * ((10:ℚ) / G0) ≠ FUSION_SAFE_TAPX_FACTOR * ((2:ℚ) / G0) := by
  decide

/-! ## agl_ready characterisation (for C7) -/

theorem fusion_step_arm (sq : ℚ → Option ℚ) (cosD : ℚ) (s : FusionState) (i : FusionIn) :
    (fusion_step sq cosD s i).1.agl_arm_ms =
      (if s.agl_arm_ms = 0 then i.now + ZERO_AGL_AFTER_MS else s.agl_arm_ms) := rfl

theorem fusion_step_ready (sq : ℚ → Option ℚ) (cosD : ℚ) (s : FusionState) (i : FusionIn) :
    (fusion_step sq cosD s i).1.agl_ready =
      (s.agl_ready ||
        decide ((if s.agl_arm_ms = 0 then i.now + ZERO_AGL_AFTER_MS else s.agl_arm_ms)
          ≤ i.now)) := rfl

/-- From any state whose arm deadline is already fixed at `A ≠ 0`,
    readiness after a run is the old flag OR-ed with "some tick reached
    the deadline". -/
theorem fusionRun_ready_char (sq : ℚ → Option ℚ) (cosD : ℚ) (A : Nat) (hA : A ≠ 0) :
    ∀ (l : List FusionIn) (s : FusionState) (b : Bool),
      s.agl_arm_ms = A → s.agl_ready = b →
      (fusionRun sq cosD s l).agl_ready = (b || l.any (fun j => decide (A ≤ j.now))) := by
  intro l
  induction l with
  | nil =>
    intro s b _ hb
    simpa using hb
  | cons j t ih =>
    intro s b hs hb
    show (fusionRun sq cosD (fusionStepS sq cosD s j) t).agl_ready = _
    have harm : (fusionStepS sq cosD s j).agl_arm_ms = A := by
      show (fusion_step sq cosD s j).1.agl_arm_ms = A
      rw [fusion_step_arm, hs, if_neg hA]
    have hready : (fusionStepS sq cosD s j).agl_ready = (b || decide (A ≤ j.now)) := by
      show (fusion_step sq cosD s j).1.agl_ready = _
      rw [fusion_step_ready, hs, if_neg hA, hb]
    rw [ih _ _ harm hready]
    simp [List.any_cons, Bool.or_assoc]

/-- C7 (amended): `agl_ready` is monotone non-decreasing across ticks (no
    soft reset), and on any power-on run it is true exactly when some tick
    after the first reached the deadline `first.now + ZERO_AGL_AFTER_MS` —
    regardless of sensor validity; baselines are captured lazily
    afterwards. -/
theorem C7_agl_ready_amended (sq : ℚ → Option ℚ) (cosD : ℚ) :
    (∀ (s : FusionState) (i : FusionIn),
      s.agl_ready = true → (fusion_step sq cosD s i).1.agl_ready = true) ∧
    (∀ (i0 : FusionIn) (rest : List FusionIn),
      (fusionRun sq cosD FusionState.init (i0 :: rest)).agl_ready =
        rest.any (fun j => decide (i0.now + ZERO_AGL_AFTER_MS ≤ j.now))) := by
  constructor
  · intro s i h
    rw [fusion_step_ready, h]
    simp
  · intro i0 rest
    show (fusionRun sq cosD (fusionStepS sq cosD FusionState.init i0) rest).agl_ready = _
    have hA : i0.now + ZERO_AGL_AFTER_MS ≠ 0 := by
      simp [ZERO_AGL_AFTER_MS]
    have harm : (fusionStepS sq cosD FusionState.init i0).agl_arm_ms =
        i0.now + ZERO_AGL_AFTER_MS := by
      show (fusion_step sq cosD FusionState.init i0).1.agl_arm_ms = _
      rw [fusion_step_arm]
      rfl
    have hready : (fusionStepS sq cosD FusionState.init i0).agl_ready = false := by
      show (fusion_step sq cosD FusionState.init i0).1.agl_ready = false
      rw [fusion_step_ready]
      have : ¬(i0.now + ZERO_AGL_AFTER_MS ≤ i0.now) := by
        simp [ZERO_AGL_AFTER_MS]
      simp [FusionState.init, this]
    rw [fusionRun_ready_char sq cosD _ hA rest _ false harm hready]
    simp

/-- Witness for C7 (amended): the warm-up deadline of a run starting at
    t = 0 is reached at t = 10000 even with both sensors invalid. -/
theorem C7_agl_ready_witness :
    (fusionRun sqrtTest COS20 FusionState.init [fuInInvalid 0, fuInInvalid 10000]).agl_ready =
      [fuInInvalid 10000].any (fun j => decide ((fuInInvalid 0).now + ZERO_AGL_AFTER_MS ≤ j.now)) ∧
    (fusion_step sqrtTest COS20
      { FusionState.init with agl_ready := true, agl_arm_ms := 1 }
      (fuInInvalid 20)).1.agl_ready = true := by
  have h := C7_agl_ready_amended sqrtTest COS20
  exact ⟨h.2 (fuInInvalid 0) [fuInInvalid 10000],
         h.1 { FusionState.init with agl_ready := true, agl_arm_ms := 1 } (fuInInvalid 20) rfl⟩

set_option maxRecDepth 100000 in
/-- Counterexample to C7 as stated: with both sensors invalid on every
    tick (no valid raw altitude is ever observed from either sensor),
    `agl_ready` still becomes true at the first tick past the warm-up
    deadline, and both baselines are still uncaptured (NaN). -/
theorem C7_agl_ready_counterexample :
    (fusionRun sqrtTest COS20 FusionState.init [fuInInvalid 0, fuInInvalid 10000]).agl_ready = true ∧
    (fusionRun sqrtTest COS20 FusionState.init [fuInInvalid 0, fuInInvalid 10000]).base_bmp1_m = none ∧
    (fusionRun sqrtTest COS20 FusionState.init [fuInInvalid 0, fuInInvalid 10000]).base_imu1_m = none ∧
    (fuInInvalid 0).vb = false ∧ (fuInInvalid 0).vi = false ∧
    (fuInInvalid 10000).vb = false ∧ (fuInInvalid 10000).vi = false := by decide

/-! ## CRC-32 (for C8) -/

/-- The source bit-round (`mask = -(crc & 1)` trick) coincides with the
    spec's reflected-CRC round (shift right, conditionally XOR the
    polynomial). -/
theorem crc32_round_eq_spec (c : Nat) : crc32_round c = crcSpecRound c := by
  unfold crc32_round crcSpecRound
  by_cases h : c % 2 = 1
  · have ht : Nat.testBit c 0 = true := by
      simp [Nat.testBit_zero, h]
    rw [if_pos h, ht]
    simp only [if_true]
    have hl : Nat.land 3988292384 4294967295 = 3988292384 := by decide
    rw [hl]
  · have ht : Nat.testBit c 0 = false := by
      simp [Nat.testBit_zero, h]
    rw [if_neg h, ht]
    have hl : Nat.land 3988292384 0 = 0 := by decide
    simp only [hl]
    exact Nat.xor_zero _

theorem crc32_update_eq_spec (data : List Nat) :
    crc32_update 0 data = crc32_ieee_reflected data := by
  unfold crc32_update crc32_ieee_reflected crcSpecByte
  have hr : crc32_round = crcSpecRound := funext crc32_round_eq_spec
  rw [hr]
  have h0 : Nat.xor 0 4294967295 = 4294967295 := by decide
  rw [h0]

/-- C8: with CRC enabled, the crc32 field written by `telemetry_build`
    equals the reflected IEEE CRC-32 (poly 0xEDB88320, init 0xFFFFFFFF,
    final XOR 0xFFFFFFFF) of all preceding record bytes, so every
    well-formed record verifies; with CRC disabled the field is 0. -/
theorem C8_crc32_field (body : List Nat) :
    telemetry_record_crc true body = crc32_ieee_reflected body ∧
    crc_verifies body (telemetry_record_crc true body) ∧
    telemetry_record_crc false body = 0 := by
  refine ⟨?_, rfl, rfl⟩
  show crc32_update 0 body = _
  exact crc32_update_eq_spec body

set_option maxRecDepth 100000 in
/-- Witness for C4 (amended) at the `c4trace2`/`c4in3` tick (vz = 10). -/
theorem C4_apogee_predictor_witness :
    (fusion_step sqrtTest COS20 (fusionRun sqrtTest COS20 FusionState.init c4trace2)
      c4in3).2.t_apogee_s = some (FUSION_SAFE_TAPX_FACTOR * (10 / G0)) ∧
    (fusion_step sqrtTest COS20 (fusionRun sqrtTest COS20 FusionState.init c4trace2)
      c4in3).2.apogee_agl_m =
      some (1/5 + FUSION_SAFE_ZAPX_FACTOR * ((10:ℚ) * 10) / (2 * G0)) := by
  have h := C4_apogee_predictor_amended sqrtTest COS20
    (fusionRun sqrtTest COS20 FusionState.init c4trace2) c4in3 (1/5) 10
    (by decide) (by decide) (by decide)
  exact h.1 (by norm_num)
